import Mathlib

/-!
# Zvec.Net native boundary layer (`zvec_c.h`, `zvec_c.cc`)

A shallow embedding of the C call surface that wraps the zvec engine.

Conventions of the embedding.
* A C pointer that may be null is an `Option`; `none` is the null pointer.
* A handle is a pointer to a heap record, so a handle argument is an `Option`
  of the record and every function that writes through the handle returns
  the record after the call.
* `int32_t`, `int64_t` and `int` are `Int`, `size_t` is `Nat`; the layer does no
  arithmetic on them apart from comparisons with zero.
* `float` and `double` values are carried by their IEEE-754 bit patterns
  (`Nat`); the layer only copies them, and the literal `0.0` is the pattern 0.
* An array argument `(p, n)` is a list together with a count; the code reads
  the first `n` cells, so the list is expected to hold at least `n` of them.
* The engine (`zvec::Doc`, `zvec::Status`, `zvec::CollectionSchema`,
  `zvec::Collection`, the index and query parameter classes) is not part of
  the repository.  Its value types are modelled from the specification, its
  collection entry points are the fields of `Engine`, and every
  status-returning function of the layer records the engine entry points it
  invokes, in order, in the `calls` field of its result.
* The message of a status is a borrowed pointer.  A string literal lives for
  ever; the message of a translated engine status points into the `Status`
  object translated, and the `message_dangles` field of a result tells
  whether that object is gone when the call has returned.
-/

namespace Zvec

/-! ## Status -/

/-- Single-precision value, by bit pattern. -/
abbrev F32 := Nat

/-- Double-precision value, by bit pattern. -/
abbrev F64 := Nat

/-- The record `zvec_status_t` of `zvec_c.h`: numeric code and borrowed message. -/
structure zvec_status_t where
  code : Int
  message : Option String
deriving DecidableEq, Repr

/-- Modelled from the spec: the engine outcome type `zvec::Status` (declared in
`zvec/db/status.h`, outside the repository), a success/failure result carrying
a code and a message, in which code 0 means success.  `StatusCode` is a scoped
enumeration, so the `static_cast<int32_t>` of `to_c_status` keeps its value. -/
structure Status where
  code : Int
  msg : String
deriving DecidableEq, Repr

/-- Modelled from the spec: `Status::ok()`, true exactly for code 0. -/
def Status.ok (s : Status) : Bool := s.code == 0

/-- Modelled from the spec: `Status::c_str()`, the message as a C string, never null. -/
def Status.c_str (s : Status) : Option String := some s.msg

/-- `to_c_status` (zvec_c.cc:49).  The message of the record is `s.c_str()`, a
pointer into `s`, good for as long as `s` lives. -/
def to_c_status (s : Status) : zvec_status_t :=
  if s.ok then ⟨0, none⟩ else ⟨s.code, s.c_str⟩

/-- `ok_status` (zvec_c.cc:56). -/
def ok_status : zvec_status_t := ⟨0, none⟩

/-- Engine entry points a call of the layer can reach. -/
inductive EngineCall where
  | doc_set
  | doc_set_null
  | schema_add_field
  | CreateAndOpen
  | Open
  | Destroy
  | Flush
  | Optimize
  | CreateIndex
  | DropIndex
  | Insert
  | Upsert
  | Update
  | Delete
  | DeleteByFilter
  | Query
  | Fetch
deriving DecidableEq, Repr

/-- Result of a status-returning function: the status, the memory it may have
written (handle record or out-parameter cell) after the call, the engine
entry points it invoked, and the lifetime of the message.  A status built by
`to_c_status` borrows its message from the `Status` object it translates; when
that object is a local or a temporary of the call it is destroyed before the
caller holds the record.  `message_dangles` is true in that case: `message`
then only records what the pointer referred to while the record was built,
and nothing can be read through it by the caller.  It is false when the
message is null or a string literal. -/
structure Ret (σ : Type) where
  status : zvec_status_t
  state : σ
  calls : List EngineCall
  message_dangles : Bool

/-! ## Document -/

/-- Modelled from the spec: the typed value a document field holds (section 3:
string / int32 / int64 / float / double / bool / null / dense float vector /
sparse index-value pair vector). -/
inductive Value where
  | null
  | string (v : String)
  | int32 (v : Int)
  | int64 (v : Int)
  | float (v : F32)
  | double (v : F64)
  | bool (v : Bool)
  | vector_f32 (v : List F32)
  | sparse_f32 (indices : List Nat) (values : List F32)
deriving DecidableEq, Repr

/-- Modelled from the spec: the engine document `zvec::Doc` (declared in
`zvec/db/doc.h`, outside the repository): a mapping from field name to typed
value with at most one value per name, a primary key and a relevance score
(default 0). -/
structure Doc where
  pk : String
  score : F64
  fields : List (String × Value)
deriving DecidableEq, Repr

/-- Modelled from the spec: a default-constructed `Doc`. -/
def Doc.empty : Doc := ⟨"", 0, []⟩

/-- Modelled from the spec: `Doc::set_pk`. -/
def Doc.set_pk (d : Doc) (pk : String) : Doc := ⟨pk, d.score, d.fields⟩

/-- Modelled from the spec: `Doc::set<T>`; setting a field overwrites any prior
value including null-ness. -/
def Doc.set (d : Doc) (name : String) (v : Value) : Doc :=
  ⟨d.pk, d.score, (name, v) :: d.fields.filter (fun p => p.1 != name)⟩

/-- Modelled from the spec: `Doc::set_null`. -/
def Doc.set_null (d : Doc) (name : String) : Doc := d.set name Value.null

/-- Modelled from the spec: `Doc::has`, type-agnostic presence of a field. -/
def Doc.has (d : Doc) (name : String) : Bool := (d.fields.lookup name).isSome

/-- Modelled from the spec: `Doc::get<std::string>`, a value only when the
field holds a string. -/
def Doc.get_string (d : Doc) (name : String) : Option String :=
  match d.fields.lookup name with
  | some (Value.string v) => some v
  | _ => none

/-- Modelled from the spec: `Doc::get<int64_t>`. -/
def Doc.get_int64 (d : Doc) (name : String) : Option Int :=
  match d.fields.lookup name with
  | some (Value.int64 v) => some v
  | _ => none

/-- Modelled from the spec: `Doc::get<double>`. -/
def Doc.get_double (d : Doc) (name : String) : Option F64 :=
  match d.fields.lookup name with
  | some (Value.double v) => some v
  | _ => none

/-- Modelled from the spec: `Doc::get<bool>`. -/
def Doc.get_bool (d : Doc) (name : String) : Option Bool :=
  match d.fields.lookup name with
  | some (Value.bool v) => some v
  | _ => none

/-- Modelled from the spec: `Doc::get<std::vector<float>>`. -/
def Doc.get_vector_f32 (d : Doc) (name : String) : Option (List F32) :=
  match d.fields.lookup name with
  | some (Value.vector_f32 v) => some v
  | _ => none

/-- The record `zvec_doc_t` (zvec_c.cc:24). -/
structure zvec_doc_t where
  doc : Doc
  pk_cache : String
  vector_cache : List F32
deriving DecidableEq, Repr

/-- `zvec_doc_create` (zvec_c.cc:117). -/
def zvec_doc_create : Option zvec_doc_t := some ⟨Doc.empty, "", []⟩

/-- `zvec_doc_set_pk` (zvec_c.cc:125). -/
def zvec_doc_set_pk (handle : Option zvec_doc_t) (pk : Option String) : Option zvec_doc_t :=
  match handle, pk with
  | some h, some p => some ⟨h.doc.set_pk p, p, h.vector_cache⟩
  | _, _ => handle

/-- `zvec_doc_get_pk` (zvec_c.cc:132): the key and the record after the call. -/
def zvec_doc_get_pk (handle : Option zvec_doc_t) : Option String × Option zvec_doc_t :=
  match handle with
  | none => (none, none)
  | some h => (some h.doc.pk, some ⟨h.doc, h.doc.pk, h.vector_cache⟩)

/-- `zvec_doc_get_score` (zvec_c.cc:138). -/
def zvec_doc_get_score (handle : Option zvec_doc_t) : F64 :=
  match handle with
  | some h => h.doc.score
  | none => 0

/-- `zvec_doc_set_string` (zvec_c.cc:142). -/
def zvec_doc_set_string (handle : Option zvec_doc_t) (field : Option String)
    (value : Option String) : Ret (Option zvec_doc_t) :=
  match handle, field with
  | some h, some f =>
    ⟨ok_status,
     some ⟨h.doc.set f (Value.string (match value with | some v => v | none => "")),
           h.pk_cache, h.vector_cache⟩,
     [EngineCall.doc_set], false⟩
  | _, _ => ⟨⟨2, some "null argument"⟩, handle, [], false⟩

/-- `zvec_doc_set_int32` (zvec_c.cc:148). -/
def zvec_doc_set_int32 (handle : Option zvec_doc_t) (field : Option String)
    (value : Int) : Ret (Option zvec_doc_t) :=
  match handle, field with
  | some h, some f =>
    ⟨ok_status, some ⟨h.doc.set f (Value.int32 value), h.pk_cache, h.vector_cache⟩,
     [EngineCall.doc_set], false⟩
  | _, _ => ⟨⟨2, some "null argument"⟩, handle, [], false⟩

/-- `zvec_doc_set_int64` (zvec_c.cc:154). -/
def zvec_doc_set_int64 (handle : Option zvec_doc_t) (field : Option String)
    (value : Int) : Ret (Option zvec_doc_t) :=
  match handle, field with
  | some h, some f =>
    ⟨ok_status, some ⟨h.doc.set f (Value.int64 value), h.pk_cache, h.vector_cache⟩,
     [EngineCall.doc_set], false⟩
  | _, _ => ⟨⟨2, some "null argument"⟩, handle, [], false⟩

/-- `zvec_doc_set_float` (zvec_c.cc:160). -/
def zvec_doc_set_float (handle : Option zvec_doc_t) (field : Option String)
    (value : F32) : Ret (Option zvec_doc_t) :=
  match handle, field with
  | some h, some f =>
    ⟨ok_status, some ⟨h.doc.set f (Value.float value), h.pk_cache, h.vector_cache⟩,
     [EngineCall.doc_set], false⟩
  | _, _ => ⟨⟨2, some "null argument"⟩, handle, [], false⟩

/-- `zvec_doc_set_double` (zvec_c.cc:166). -/
def zvec_doc_set_double (handle : Option zvec_doc_t) (field : Option String)
    (value : F64) : Ret (Option zvec_doc_t) :=
  match handle, field with
  | some h, some f =>
    ⟨ok_status, some ⟨h.doc.set f (Value.double value), h.pk_cache, h.vector_cache⟩,
     [EngineCall.doc_set], false⟩
  | _, _ => ⟨⟨2, some "null argument"⟩, handle, [], false⟩

/-- `zvec_doc_set_bool` (zvec_c.cc:172); the C argument is an `int`. -/
def zvec_doc_set_bool (handle : Option zvec_doc_t) (field : Option String)
    (value : Int) : Ret (Option zvec_doc_t) :=
  match handle, field with
  | some h, some f =>
    ⟨ok_status, some ⟨h.doc.set f (Value.bool (value != 0)), h.pk_cache, h.vector_cache⟩,
     [EngineCall.doc_set], false⟩
  | _, _ => ⟨⟨2, some "null argument"⟩, handle, [], false⟩

/-- `zvec_doc_set_null` (zvec_c.cc:178). -/
def zvec_doc_set_null (handle : Option zvec_doc_t) (field : Option String) :
    Ret (Option zvec_doc_t) :=
  match handle, field with
  | some h, some f =>
    ⟨ok_status, some ⟨h.doc.set_null f, h.pk_cache, h.vector_cache⟩,
     [EngineCall.doc_set_null], false⟩
  | _, _ => ⟨⟨2, some "null argument"⟩, handle, [], false⟩

/-- `zvec_doc_set_vector_f32` (zvec_c.cc:184); `data.take len` is the range
`[data, data + len)`. -/
def zvec_doc_set_vector_f32 (handle : Option zvec_doc_t) (field : Option String)
    (data : Option (List F32)) (len : Nat) : Ret (Option zvec_doc_t) :=
  match handle, field, data with
  | some h, some f, some xs =>
    ⟨ok_status,
     some ⟨h.doc.set f (Value.vector_f32 (xs.take len)), h.pk_cache, h.vector_cache⟩,
     [EngineCall.doc_set], false⟩
  | _, _, _ => ⟨⟨2, some "null argument"⟩, handle, [], false⟩

/-- `zvec_doc_set_sparse_vector_f32` (zvec_c.cc:191). -/
def zvec_doc_set_sparse_vector_f32 (handle : Option zvec_doc_t) (field : Option String)
    (indices : Option (List Nat)) (values : Option (List F32)) (len : Nat) :
    Ret (Option zvec_doc_t) :=
  match handle, field, indices, values with
  | some h, some f, some is, some vs =>
    ⟨ok_status,
     some ⟨h.doc.set f (Value.sparse_f32 (is.take len) (vs.take len)),
           h.pk_cache, h.vector_cache⟩,
     [EngineCall.doc_set], false⟩
  | _, _, _, _ => ⟨⟨2, some "null argument"⟩, handle, [], false⟩

/-- `zvec_doc_get_vector_f32` (zvec_c.cc:201): the count returned and the
caller buffer after the `memcpy` of `copy_len` elements to its start. -/
def zvec_doc_get_vector_f32 (handle : Option zvec_doc_t) (field : Option String)
    (out_data : Option (List F32)) (max_len : Nat) : Nat × Option (List F32) :=
  match handle, field, out_data with
  | some h, some f, some out =>
    match h.doc.get_vector_f32 f with
    | some vec =>
      let copy_len := min max_len vec.length
      (copy_len, some (vec.take copy_len ++ out.drop copy_len))
    | none => (0, some out)
  | _, _, _ => (0, out_data)

/-- `zvec_doc_has_field` (zvec_c.cc:213). -/
def zvec_doc_has_field (handle : Option zvec_doc_t) (field : Option String) : Int :=
  match handle, field with
  | some h, some f => if h.doc.has f then 1 else 0
  | _, _ => 0

/-- `zvec_doc_get_string` (zvec_c.cc:218): the string returned and the record
after the call (the string is parked in `pk_cache`). -/
def zvec_doc_get_string (handle : Option zvec_doc_t) (field : Option String) :
    Option String × Option zvec_doc_t :=
  match handle, field with
  | some h, some f =>
    match h.doc.get_string f with
    | some v => (some v, some ⟨h.doc, v, h.vector_cache⟩)
    | none => (none, handle)
  | _, _ => (none, handle)

/-- `zvec_doc_get_int64` (zvec_c.cc:228). -/
def zvec_doc_get_int64 (handle : Option zvec_doc_t) (field : Option String) : Int :=
  match handle, field with
  | some h, some f =>
    match h.doc.get_int64 f with
    | some v => v
    | none => 0
  | _, _ => 0

/-- `zvec_doc_get_double` (zvec_c.cc:234). -/
def zvec_doc_get_double (handle : Option zvec_doc_t) (field : Option String) : F64 :=
  match handle, field with
  | some h, some f =>
    match h.doc.get_double f with
    | some v => v
    | none => 0
  | _, _ => 0

/-- `zvec_doc_get_bool` (zvec_c.cc:240). -/
def zvec_doc_get_bool (handle : Option zvec_doc_t) (field : Option String) : Int :=
  match handle, field with
  | some h, some f =>
    match h.doc.get_bool f with
    | some v => if v then 1 else 0
    | none => 0
  | _, _ => 0

/-! ## Field descriptors, index parameters, schema -/

/-- The record `zvec_field_def_t` (zvec_c.h:68). -/
structure zvec_field_def_t where
  name : Option String
  data_type : Int
  dimension : Int
  nullable : Int
  index_type : Int
  metric_type : Int
  m : Int
  ef_construction : Int
  n_lists : Int
  quantize_type : Int
deriving DecidableEq, Repr

/-- `ZVEC_INDEX_TYPE_UNDEFINED` (zvec_c.h:42). -/
def ZVEC_INDEX_TYPE_UNDEFINED : Int := 0

/-- `ZVEC_INDEX_TYPE_HNSW` (zvec_c.h:43). -/
def ZVEC_INDEX_TYPE_HNSW : Int := 1

/-- `ZVEC_INDEX_TYPE_IVF` (zvec_c.h:44). -/
def ZVEC_INDEX_TYPE_IVF : Int := 3

/-- `ZVEC_INDEX_TYPE_FLAT` (zvec_c.h:45). -/
def ZVEC_INDEX_TYPE_FLAT : Int := 4

/-- `ZVEC_INDEX_TYPE_INVERT` (zvec_c.h:46). -/
def ZVEC_INDEX_TYPE_INVERT : Int := 10

/-- Modelled from the spec: the engine class family `IndexParams` (declared in
`zvec/db/index_params.h`, outside the repository), one variant per index
family, each holding the constructor arguments the layer passes, by position:
graph-based (metric, degree, construction breadth, quantization),
inverted-list (metric, list count, two fixed arguments, quantization),
flat (metric, quantization), inverted-index (none). -/
inductive IndexParams where
  | hnsw (metric_type : Int) (m : Int) (ef_construction : Int) (quantize_type : Int)
  | ivf (metric_type : Int) (n_list : Int) (arg3 : Int) (arg4 : Bool) (quantize_type : Int)
  | flat (metric_type : Int) (quantize_type : Int)
  | invert
deriving DecidableEq, Repr

/-- `create_index_params` (zvec_c.cc:61).  The enumerators of the engine
`IndexType` carry the values of the `ZVEC_INDEX_TYPE_*` constants. -/
def create_index_params (d : Option zvec_field_def_t) : Option IndexParams :=
  match d with
  | none => none
  | some d =>
    if d.index_type = ZVEC_INDEX_TYPE_HNSW then
      some (IndexParams.hnsw d.metric_type
        (if d.m > 0 then d.m else 16)
        (if d.ef_construction > 0 then d.ef_construction else 200)
        d.quantize_type)
    else if d.index_type = ZVEC_INDEX_TYPE_IVF then
      some (IndexParams.ivf d.metric_type
        (if d.n_lists > 0 then d.n_lists else 1024)
        10 false d.quantize_type)
    else if d.index_type = ZVEC_INDEX_TYPE_FLAT then
      some (IndexParams.flat d.metric_type d.quantize_type)
    else if d.index_type = ZVEC_INDEX_TYPE_INVERT then
      some IndexParams.invert
    else none

/-- Modelled from the spec: the engine class `FieldSchema` (declared in
`zvec/db/schema.h`, outside the repository): name, data type, dimension,
nullability and the index parameters attached to the field, if any. -/
structure FieldSchema where
  name : String
  data_type : Int
  dimension : Int
  nullable : Bool
  index_params : Option IndexParams
deriving DecidableEq, Repr

/-- Modelled from the spec: `FieldSchema::set_index_params`. -/
def FieldSchema.set_index_params (f : FieldSchema) (p : IndexParams) : FieldSchema :=
  ⟨f.name, f.data_type, f.dimension, f.nullable, some p⟩

/-- `create_field_schema` (zvec_c.cc:92). -/
def create_field_schema (d : Option zvec_field_def_t) : Option FieldSchema :=
  match d with
  | none => none
  | some d =>
    match d.name with
    | none => none
    | some name =>
      let field : FieldSchema := ⟨name, d.data_type, d.dimension, d.nullable != 0, none⟩
      if d.index_type ≠ ZVEC_INDEX_TYPE_UNDEFINED then
        match create_index_params (some d) with
        | some index_params => some (field.set_index_params index_params)
        | none => some field
      else some field

/-- Modelled from the spec: what the layer relies on from the engine schema
classes without fixing it: the outcome `CollectionSchema::add_field` reports
for a duplicate field name (a violation, hence not a success), and the
predicate `FieldSchema::is_vector_field` on data-type tags. -/
structure SchemaRules where
  duplicate : Status
  duplicate_fails : duplicate.ok = false
  is_vector_field : Int → Bool

/-- Modelled from the spec: the engine class `CollectionSchema` (declared in
`zvec/db/schema.h`, outside the repository): a named, ordered list of field
schemas with unique names. -/
structure CollectionSchema where
  name : String
  fields : List FieldSchema
deriving DecidableEq, Repr

/-- Modelled from the spec: `CollectionSchema::add_field`; adding a field
enforces name uniqueness and the engine surfaces a duplicate-name violation. -/
def CollectionSchema.add_field (R : SchemaRules) (s : CollectionSchema) (f : FieldSchema) :
    Status × CollectionSchema :=
  if s.fields.any (fun g => g.name == f.name) then (R.duplicate, s)
  else (⟨0, ""⟩, ⟨s.name, s.fields ++ [f]⟩)

/-- Modelled from the spec: `CollectionSchema::vector_fields`, the derived
sub-list of vector-typed fields. -/
def CollectionSchema.vector_fields (R : SchemaRules) (s : CollectionSchema) :
    List FieldSchema :=
  s.fields.filter (fun g => R.is_vector_field g.data_type)

/-- The record `zvec_schema_t` (zvec_c.cc:34). -/
structure zvec_schema_t where
  schema : CollectionSchema
  name_cache : String
deriving DecidableEq, Repr

/-- `zvec_schema_create` (zvec_c.cc:247). -/
def zvec_schema_create (name : Option String) : Option zvec_schema_t :=
  match name with
  | none => none
  | some n => some ⟨⟨n, []⟩, ""⟩

/-- `zvec_schema_add_field` (zvec_c.cc:258). -/
def zvec_schema_add_field (R : SchemaRules) (handle : Option zvec_schema_t)
    (field_def : Option zvec_field_def_t) : Ret (Option zvec_schema_t) :=
  match handle, field_def with
  | some h, some d =>
    match create_field_schema (some d) with
    | none => ⟨⟨2, some "invalid field definition"⟩, handle, [], false⟩
    | some field =>
      let r := h.schema.add_field R field
      ⟨to_c_status r.1, some ⟨r.2, h.name_cache⟩, [EngineCall.schema_add_field],
        (to_c_status r.1).message.isSome⟩
  | _, _ => ⟨⟨2, some "null argument"⟩, handle, [], false⟩

/-- `zvec_schema_add_vector_field` (zvec_c.cc:268). -/
def zvec_schema_add_vector_field (R : SchemaRules) (handle : Option zvec_schema_t)
    (field_def : Option zvec_field_def_t) : Ret (Option zvec_schema_t) :=
  match handle, field_def with
  | some h, some d =>
    match create_field_schema (some d) with
    | none => ⟨⟨2, some "invalid field definition"⟩, handle, [], false⟩
    | some field =>
      if !R.is_vector_field field.data_type then
        ⟨⟨2, some "not a vector field type"⟩, handle, [], false⟩
      else
        let r := h.schema.add_field R field
        ⟨to_c_status r.1, some ⟨r.2, h.name_cache⟩, [EngineCall.schema_add_field],
          (to_c_status r.1).message.isSome⟩
  | _, _ => ⟨⟨2, some "null argument"⟩, handle, [], false⟩

/-- `zvec_schema_get_field_count` (zvec_c.cc:302). -/
def zvec_schema_get_field_count (handle : Option zvec_schema_t) : Nat :=
  match handle with
  | none => 0
  | some h => h.schema.fields.length

/-- `zvec_schema_get_vector_count` (zvec_c.cc:307). -/
def zvec_schema_get_vector_count (R : SchemaRules) (handle : Option zvec_schema_t) : Nat :=
  match handle with
  | none => 0
  | some h => (h.schema.vector_fields R).length

/-! ## Query and result records -/

/-- Modelled from the spec: the engine search-time parameter variant
(`zvec/db/query_params.h`, outside the repository): graph search breadth,
probe count, or a variant of another family. -/
inductive QueryParams where
  | hnsw (ef : Int)
  | ivf (nprobe : Int)
  | other
deriving DecidableEq, Repr

/-- Modelled from the spec: the engine query descriptor `VectorQuery`
(declared in `zvec/db/doc.h`, outside the repository), with the members the
layer assigns; the query vector is an opaque byte buffer. -/
structure VectorQuery where
  topk_ : Int
  field_name_ : String
  query_vector_ : List Nat
  filter_ : String
  include_vector_ : Bool
  output_fields_ : List String
  query_params_ : Option QueryParams
deriving DecidableEq, Repr

/-- The record `zvec_query_t` (zvec_c.cc:39). -/
structure zvec_query_t where
  query : VectorQuery
  field_name_cache : String
  filter_cache : String
  output_fields_cache : List String
  output_fields_ptrs : List String
  vector_cache : List F32
deriving DecidableEq, Repr

/-- Modelled from the spec: a default-constructed `VectorQuery`.  The spec
fixes no default for the scalar members, taken here as zero and empty; the
search-time parameter variant is a shared pointer and starts out null. -/
def VectorQuery.empty : VectorQuery := ⟨0, "", [], "", false, [], none⟩

/-- Modelled from the spec: `HnswQueryParams::set_ef` seen through a
`dynamic_cast<HnswQueryParams*>`: the search breadth of the graph-based
variant is replaced, any other variant fails the cast and is left alone. -/
def QueryParams.set_ef (p : QueryParams) (ef : Int) : QueryParams :=
  match p with
  | QueryParams.hnsw _ => QueryParams.hnsw ef
  | QueryParams.ivf n => QueryParams.ivf n
  | QueryParams.other => QueryParams.other

/-- Modelled from the spec: `IVFQueryParams::set_nprobe` seen through a
`dynamic_cast<IVFQueryParams*>`. -/
def QueryParams.set_nprobe (p : QueryParams) (n_probe : Int) : QueryParams :=
  match p with
  | QueryParams.ivf _ => QueryParams.ivf n_probe
  | QueryParams.hnsw ef => QueryParams.hnsw ef
  | QueryParams.other => QueryParams.other

/-- The four bytes of a single-precision value in memory, low byte first. -/
def f32_bytes (x : F32) : List Nat :=
  [x % 256, x / 256 % 256, x / 65536 % 256, x / 16777216 % 256]

/-- `zvec_query_create` (zvec_c.cc:365). -/
def zvec_query_create : Option zvec_query_t := some ⟨VectorQuery.empty, "", "", [], [], []⟩

/-- `zvec_query_set_topk` (zvec_c.cc:373). -/
def zvec_query_set_topk (handle : Option zvec_query_t) (topk : Int) : Option zvec_query_t :=
  match handle with
  | some h =>
    some ⟨⟨topk, h.query.field_name_, h.query.query_vector_, h.query.filter_,
           h.query.include_vector_, h.query.output_fields_, h.query.query_params_⟩,
          h.field_name_cache, h.filter_cache, h.output_fields_cache, h.output_fields_ptrs,
          h.vector_cache⟩
  | none => none

/-- `zvec_query_set_field_name` (zvec_c.cc:377). -/
def zvec_query_set_field_name (handle : Option zvec_query_t) (field_name : Option String) :
    Option zvec_query_t :=
  match handle, field_name with
  | some h, some n =>
    some ⟨⟨h.query.topk_, n, h.query.query_vector_, h.query.filter_,
           h.query.include_vector_, h.query.output_fields_, h.query.query_params_⟩,
          n, h.filter_cache, h.output_fields_cache, h.output_fields_ptrs, h.vector_cache⟩
  | _, _ => handle

/-- `zvec_query_set_vector` (zvec_c.cc:384): the floats are cached and their
`len * sizeof(float)` bytes become the query vector. -/
def zvec_query_set_vector (handle : Option zvec_query_t) (data : Option (List F32))
    (len : Nat) : Option zvec_query_t :=
  match handle, data with
  | some h, some xs =>
    some ⟨⟨h.query.topk_, h.query.field_name_, ((xs.take len).map f32_bytes).flatten,
           h.query.filter_, h.query.include_vector_, h.query.output_fields_,
           h.query.query_params_⟩,
          h.field_name_cache, h.filter_cache, h.output_fields_cache, h.output_fields_ptrs,
          xs.take len⟩
  | _, _ => handle

/-- `zvec_query_set_filter` (zvec_c.cc:395). -/
def zvec_query_set_filter (handle : Option zvec_query_t) (filter : Option String) :
    Option zvec_query_t :=
  match handle, filter with
  | some h, some flt =>
    some ⟨⟨h.query.topk_, h.query.field_name_, h.query.query_vector_, flt,
           h.query.include_vector_, h.query.output_fields_, h.query.query_params_⟩,
          h.field_name_cache, flt, h.output_fields_cache, h.output_fields_ptrs,
          h.vector_cache⟩
  | _, _ => handle

/-- `zvec_query_set_include_vector` (zvec_c.cc:402). -/
def zvec_query_set_include_vector (handle : Option zvec_query_t) (incl : Int) :
    Option zvec_query_t :=
  match handle with
  | some h =>
    some ⟨⟨h.query.topk_, h.query.field_name_, h.query.query_vector_, h.query.filter_,
           incl != 0, h.query.output_fields_, h.query.query_params_⟩,
          h.field_name_cache, h.filter_cache, h.output_fields_cache, h.output_fields_ptrs,
          h.vector_cache⟩
  | none => none

/-- `zvec_query_set_output_fields` (zvec_c.cc:406).  The cells of `fields` are C
strings the code converts unchecked, hence strings. -/
def zvec_query_set_output_fields (handle : Option zvec_query_t)
    (fields : Option (List String)) (count : Nat) : Option zvec_query_t :=
  match handle, fields with
  | some h, some fs =>
    some ⟨⟨h.query.topk_, h.query.field_name_, h.query.query_vector_, h.query.filter_,
           h.query.include_vector_, fs.take count, h.query.query_params_⟩,
          h.field_name_cache, h.filter_cache, fs.take count, [], h.vector_cache⟩
  | _, _ => handle

/-- `zvec_query_set_ef_search` (zvec_c.cc:417). -/
def zvec_query_set_ef_search (handle : Option zvec_query_t) (ef : Int) :
    Option zvec_query_t :=
  match handle with
  | some h =>
    match h.query.query_params_ with
    | some p =>
      some ⟨⟨h.query.topk_, h.query.field_name_, h.query.query_vector_, h.query.filter_,
             h.query.include_vector_, h.query.output_fields_, some (p.set_ef ef)⟩,
            h.field_name_cache, h.filter_cache, h.output_fields_cache, h.output_fields_ptrs,
            h.vector_cache⟩
    | none => handle
  | none => none

/-- `zvec_query_set_n_probe` (zvec_c.cc:424). -/
def zvec_query_set_n_probe (handle : Option zvec_query_t) (n_probe : Int) :
    Option zvec_query_t :=
  match handle with
  | some h =>
    match h.query.query_params_ with
    | some p =>
      some ⟨⟨h.query.topk_, h.query.field_name_, h.query.query_vector_, h.query.filter_,
             h.query.include_vector_, h.query.output_fields_, some (p.set_nprobe n_probe)⟩,
            h.field_name_cache, h.filter_cache, h.output_fields_cache, h.output_fields_ptrs,
            h.vector_cache⟩
    | none => handle
  | none => none

/-- The record `zvec_result_t` (zvec_c.cc:30). -/
structure zvec_result_t where
  docs : List zvec_doc_t
deriving DecidableEq, Repr

/-- The record `zvec_collection_options_t` (zvec_c.h:82). -/
structure zvec_collection_options_t where
  segment_max_docs : Int
  index_build_parallel : Int
  auto_flush : Int
deriving DecidableEq, Repr

/-! ## Collection -/

/-- Modelled from the spec: the entry points of the engine class `Collection`
(declared in `zvec/db/collection.h`, outside the repository) over a type `C`
of collection states.  An entry point yields its outcome and, when it acts on
an open collection, the collection after the call.  An `Except` is the
engine result type holding either a value or a failure `Status`.  The layer
always passes a default `CollectionOptions`, which is therefore left out. -/
structure Engine (C : Type) where
  CreateAndOpen : String → CollectionSchema → Except Status C
  Open : String → Except Status C
  Destroy : C → Status × C
  Flush : C → Status × C
  Optimize : C → Status × C
  CreateIndex : C → String → IndexParams → Status × C
  DropIndex : C → String → Status × C
  Insert : C → List Doc → Except Status (List Status) × C
  Upsert : C → List Doc → Except Status (List Status) × C
  Update : C → List Doc → Except Status (List Status) × C
  Delete : C → List String → Except Status (List Status) × C
  DeleteByFilter : C → String → Status × C
  Query : C → VectorQuery → Except Status (List (Option Doc)) × C
  Fetch : C → List String → Except Status (List (String × Option Doc)) × C

/-- The record `zvec_collection_t` (zvec_c.cc:19); `ptr` is a shared pointer
and may be null. -/
structure zvec_collection_t (C : Type) where
  ptr : Option C
  path_cache : String

/-- `zvec_collection_create_and_open` (zvec_c.cc:432).  `out` is the
out-parameter: `none` when the pointer is null, otherwise the handle stored in
the designated cell; the result state is that cell after the call. -/
def zvec_collection_create_and_open {C : Type} (E : Engine C) (path : Option String)
    (schema : Option zvec_schema_t) (_options : Option zvec_collection_options_t)
    (out : Option (Option (zvec_collection_t C))) :
    Ret (Option (Option (zvec_collection_t C))) :=
  match path, out with
  | some p, some _ =>
    match schema with
    | none => ⟨⟨2, some "null schema"⟩, out, [], false⟩
    | some sch =>
      match E.CreateAndOpen p sch.schema with
      | Except.ok c => ⟨ok_status, some (some ⟨some c, p⟩), [EngineCall.CreateAndOpen], false⟩
      | Except.error e => ⟨to_c_status e, out, [EngineCall.CreateAndOpen],
        (to_c_status e).message.isSome⟩
  | _, _ => ⟨⟨2, some "null argument"⟩, out, [], false⟩

/-- `zvec_collection_open` (zvec_c.cc:460). -/
def zvec_collection_open {C : Type} (E : Engine C) (path : Option String)
    (_options : Option zvec_collection_options_t)
    (out : Option (Option (zvec_collection_t C))) :
    Ret (Option (Option (zvec_collection_t C))) :=
  match path, out with
  | some p, some _ =>
    match E.Open p with
    | Except.ok c => ⟨ok_status, some (some ⟨some c, p⟩), [EngineCall.Open], false⟩
    | Except.error e => ⟨to_c_status e, out, [EngineCall.Open],
      (to_c_status e).message.isSome⟩
  | _, _ => ⟨⟨2, some "null argument"⟩, out, [], false⟩

/-- The guard `!handle || !handle->ptr` every collection operation starts
with: the record and the engine collection behind a usable handle. -/
def zvec_collection_t.live {C : Type} (handle : Option (zvec_collection_t C)) :
    Option (zvec_collection_t C × C) :=
  match handle with
  | none => none
  | some h =>
    match h.ptr with
    | none => none
    | some c => some (h, c)

/-- `zvec_collection_destroy_data` (zvec_c.cc:491). -/
def zvec_collection_destroy_data {C : Type} (E : Engine C)
    (handle : Option (zvec_collection_t C)) : Ret (Option (zvec_collection_t C)) :=
  match zvec_collection_t.live handle with
  | none => ⟨⟨2, some "null handle"⟩, handle, [], false⟩
  | some (h, c) =>
    let r := E.Destroy c
    ⟨to_c_status r.1, some ⟨some r.2, h.path_cache⟩, [EngineCall.Destroy],
      (to_c_status r.1).message.isSome⟩

/-- `zvec_collection_flush` (zvec_c.cc:496). -/
def zvec_collection_flush {C : Type} (E : Engine C)
    (handle : Option (zvec_collection_t C)) : Ret (Option (zvec_collection_t C)) :=
  match zvec_collection_t.live handle with
  | none => ⟨⟨2, some "null handle"⟩, handle, [], false⟩
  | some (h, c) =>
    let r := E.Flush c
    ⟨to_c_status r.1, some ⟨some r.2, h.path_cache⟩, [EngineCall.Flush],
      (to_c_status r.1).message.isSome⟩

/-- `zvec_collection_optimize` (zvec_c.cc:501). -/
def zvec_collection_optimize {C : Type} (E : Engine C)
    (handle : Option (zvec_collection_t C)) : Ret (Option (zvec_collection_t C)) :=
  match zvec_collection_t.live handle with
  | none => ⟨⟨2, some "null handle"⟩, handle, [], false⟩
  | some (h, c) =>
    let r := E.Optimize c
    ⟨to_c_status r.1, some ⟨some r.2, h.path_cache⟩, [EngineCall.Optimize],
      (to_c_status r.1).message.isSome⟩

/-- `zvec_collection_create_index` (zvec_c.cc:506). -/
def zvec_collection_create_index {C : Type} (E : Engine C)
    (handle : Option (zvec_collection_t C)) (field_name : Option String)
    (index_def : Option zvec_field_def_t) : Ret (Option (zvec_collection_t C)) :=
  match zvec_collection_t.live handle with
  | none => ⟨⟨2, some "null handle"⟩, handle, [], false⟩
  | some (h, c) =>
    match field_name with
    | none => ⟨⟨2, some "null field_name"⟩, handle, [], false⟩
    | some name =>
      match index_def with
      | none => ⟨⟨2, some "null index_def"⟩, handle, [], false⟩
      | some d =>
        match create_index_params (some d) with
        | none => ⟨⟨2, some "invalid index definition"⟩, handle, [], false⟩
        | some index_params =>
          let r := E.CreateIndex c name index_params
          ⟨to_c_status r.1, some ⟨some r.2, h.path_cache⟩, [EngineCall.CreateIndex],
            (to_c_status r.1).message.isSome⟩

/-- `zvec_collection_drop_index` (zvec_c.cc:521). -/
def zvec_collection_drop_index {C : Type} (E : Engine C)
    (handle : Option (zvec_collection_t C)) (field_name : Option String) :
    Ret (Option (zvec_collection_t C)) :=
  match zvec_collection_t.live handle with
  | none => ⟨⟨2, some "null handle"⟩, handle, [], false⟩
  | some (h, c) =>
    match field_name with
    | none => ⟨⟨2, some "null field_name"⟩, handle, [], false⟩
    | some name =>
      let r := E.DropIndex c name
      ⟨to_c_status r.1, some ⟨some r.2, h.path_cache⟩, [EngineCall.DropIndex],
        (to_c_status r.1).message.isSome⟩

/-- The loop over the per-item statuses of a batch (zvec_c.cc:543-546, repeated
at 563, 583 and 603): the first status that is not ok is returned translated,
and `ok_status` when the loop runs to its end.  This is the record as built
inside the call, while the local `result` holding the statuses is alive; the
batch operations mark its message as dangling once they have returned. -/
def first_failure (statuses : List Status) : zvec_status_t :=
  match statuses with
  | [] => ok_status
  | s :: rest => if !s.ok then to_c_status s else first_failure rest

/-- The tail of a batch operation once the engine has answered
(zvec_c.cc:542-548), as built inside the call: a non-null message points into
the local `result`. -/
def batch_status (result : Except Status (List Status)) : zvec_status_t :=
  match result with
  | Except.ok statuses => first_failure statuses
  | Except.error e => to_c_status e

/-- `zvec_collection_insert` (zvec_c.cc:531).  The cells of `docs` are document
handles the code dereferences unchecked, hence records. -/
def zvec_collection_insert {C : Type} (E : Engine C)
    (handle : Option (zvec_collection_t C)) (docs : Option (List zvec_doc_t))
    (count : Nat) : Ret (Option (zvec_collection_t C)) :=
  match zvec_collection_t.live handle with
  | none => ⟨⟨2, some "null handle"⟩, handle, [], false⟩
  | some (h, c) =>
    match docs with
    | none => ⟨ok_status, handle, [], false⟩
    | some ds =>
      if count = 0 then ⟨ok_status, handle, [], false⟩
      else
        let zvec_docs := (ds.take count).map (fun d => d.doc)
        let r := E.Insert c zvec_docs
        ⟨batch_status r.1, some ⟨some r.2, h.path_cache⟩, [EngineCall.Insert],
          (batch_status r.1).message.isSome⟩

/-- `zvec_collection_upsert` (zvec_c.cc:551). -/
def zvec_collection_upsert {C : Type} (E : Engine C)
    (handle : Option (zvec_collection_t C)) (docs : Option (List zvec_doc_t))
    (count : Nat) : Ret (Option (zvec_collection_t C)) :=
  match zvec_collection_t.live handle with
  | none => ⟨⟨2, some "null handle"⟩, handle, [], false⟩
  | some (h, c) =>
    match docs with
    | none => ⟨ok_status, handle, [], false⟩
    | some ds =>
      if count = 0 then ⟨ok_status, handle, [], false⟩
      else
        let zvec_docs := (ds.take count).map (fun d => d.doc)
        let r := E.Upsert c zvec_docs
        ⟨batch_status r.1, some ⟨some r.2, h.path_cache⟩, [EngineCall.Upsert],
          (batch_status r.1).message.isSome⟩

/-- `zvec_collection_update` (zvec_c.cc:571). -/
def zvec_collection_update {C : Type} (E : Engine C)
    (handle : Option (zvec_collection_t C)) (docs : Option (List zvec_doc_t))
    (count : Nat) : Ret (Option (zvec_collection_t C)) :=
  match zvec_collection_t.live handle with
  | none => ⟨⟨2, some "null handle"⟩, handle, [], false⟩
  | some (h, c) =>
    match docs with
    | none => ⟨ok_status, handle, [], false⟩
    | some ds =>
      if count = 0 then ⟨ok_status, handle, [], false⟩
      else
        let zvec_docs := (ds.take count).map (fun d => d.doc)
        let r := E.Update c zvec_docs
        ⟨batch_status r.1, some ⟨some r.2, h.path_cache⟩, [EngineCall.Update],
          (batch_status r.1).message.isSome⟩

/-- `zvec_collection_delete` (zvec_c.cc:591).  The cells of `ids` are C strings
the code converts unchecked, hence strings. -/
def zvec_collection_delete {C : Type} (E : Engine C)
    (handle : Option (zvec_collection_t C)) (ids : Option (List String))
    (count : Nat) : Ret (Option (zvec_collection_t C)) :=
  match zvec_collection_t.live handle with
  | none => ⟨⟨2, some "null handle"⟩, handle, [], false⟩
  | some (h, c) =>
    match ids with
    | none => ⟨ok_status, handle, [], false⟩
    | some xs =>
      if count = 0 then ⟨ok_status, handle, [], false⟩
      else
        let pks := xs.take count
        let r := E.Delete c pks
        ⟨batch_status r.1, some ⟨some r.2, h.path_cache⟩, [EngineCall.Delete],
          (batch_status r.1).message.isSome⟩

/-- `zvec_collection_delete_by_filter` (zvec_c.cc:611). -/
def zvec_collection_delete_by_filter {C : Type} (E : Engine C)
    (handle : Option (zvec_collection_t C)) (filter : Option String) :
    Ret (Option (zvec_collection_t C)) :=
  match zvec_collection_t.live handle with
  | none => ⟨⟨2, some "null handle"⟩, handle, [], false⟩
  | some (h, c) =>
    match filter with
    | none => ⟨⟨2, some "null filter"⟩, handle, [], false⟩
    | some flt =>
      let r := E.DeleteByFilter c flt
      ⟨to_c_status r.1, some ⟨some r.2, h.path_cache⟩, [EngineCall.DeleteByFilter],
        (to_c_status r.1).message.isSome⟩

/-- The loop of `zvec_collection_query` over the engine documents
(zvec_c.cc:626-633): null entries are skipped, every other document is
wrapped in a record whose key cache holds its primary key. -/
def query_docs (ds : List (Option Doc)) : List zvec_doc_t :=
  ds.filterMap (fun doc_ptr =>
    match doc_ptr with
    | some d => some ⟨d, d.pk, []⟩
    | none => none)

/-- `zvec_collection_query` (zvec_c.cc:618).  The state of the result is the
collection record and the out-parameter cell after the call. -/
def zvec_collection_query {C : Type} (E : Engine C)
    (handle : Option (zvec_collection_t C)) (query : Option zvec_query_t)
    (out : Option (Option zvec_result_t)) :
    Ret (Option (zvec_collection_t C) × Option (Option zvec_result_t)) :=
  match zvec_collection_t.live handle with
  | none => ⟨⟨2, some "null handle"⟩, (handle, out), [], false⟩
  | some (h, c) =>
    match query with
    | none => ⟨⟨2, some "null query"⟩, (handle, out), [], false⟩
    | some q =>
      match out with
      | none => ⟨⟨2, some "null out"⟩, (handle, out), [], false⟩
      | some _ =>
        let r := E.Query c q.query
        match r.1 with
        | Except.ok ds =>
          ⟨ok_status, (some ⟨some r.2, h.path_cache⟩, some (some ⟨query_docs ds⟩)),
           [EngineCall.Query], false⟩
        | Except.error e =>
          ⟨to_c_status e, (some ⟨some r.2, h.path_cache⟩, out), [EngineCall.Query],
            (to_c_status e).message.isSome⟩

/-- The loop of `zvec_collection_fetch` over the engine key-document pairs
(zvec_c.cc:656-663). -/
def fetch_docs (ds : List (String × Option Doc)) : List zvec_doc_t :=
  ds.filterMap (fun e =>
    match e.2 with
    | some d => some ⟨d, e.1, []⟩
    | none => none)

/-- `zvec_collection_fetch` (zvec_c.cc:641). -/
def zvec_collection_fetch {C : Type} (E : Engine C)
    (handle : Option (zvec_collection_t C)) (ids : Option (List String)) (count : Nat)
    (out : Option (Option zvec_result_t)) :
    Ret (Option (zvec_collection_t C) × Option (Option zvec_result_t)) :=
  match zvec_collection_t.live handle with
  | none => ⟨⟨2, some "null handle"⟩, (handle, out), [], false⟩
  | some (h, c) =>
    match out with
    | none => ⟨⟨2, some "null out"⟩, (handle, out), [], false⟩
    | some _ =>
      let pks : List String :=
        match ids with
        | some xs => if count > 0 then xs.take count else []
        | none => []
      let r := E.Fetch c pks
      match r.1 with
      | Except.ok ds =>
        ⟨ok_status, (some ⟨some r.2, h.path_cache⟩, some (some ⟨fetch_docs ds⟩)),
         [EngineCall.Fetch], false⟩
      | Except.error e =>
        ⟨to_c_status e, (some ⟨some r.2, h.path_cache⟩, out), [EngineCall.Fetch],
          (to_c_status e).message.isSome⟩

/-- `zvec_result_count` (zvec_c.cc:687). -/
def zvec_result_count (handle : Option zvec_result_t) : Nat :=
  match handle with
  | some h => h.docs.length
  | none => 0

/-- `zvec_result_get_doc` (zvec_c.cc:691). -/
def zvec_result_get_doc (handle : Option zvec_result_t) (index : Nat) : Option zvec_doc_t :=
  match handle with
  | none => none
  | some h => if index ≥ h.docs.length then none else h.docs.get? index

/-! ## The call surface as data

The families of calls the statements below range over: the nine document
setters, the calls that write through a document handle, and the
status-returning calls of the layer. -/

/-- The nine document setters of `zvec_c.h`, each with its arguments other than
the handle and the field name. -/
inductive DocSetter where
  | set_string (value : Option String)
  | set_int32 (value : Int)
  | set_int64 (value : Int)
  | set_float (value : F32)
  | set_double (value : F64)
  | set_bool (value : Int)
  | set_null
  | set_vector_f32 (data : Option (List F32)) (len : Nat)
  | set_sparse_vector_f32 (indices : Option (List Nat)) (values : Option (List F32)) (len : Nat)
deriving DecidableEq, Repr

/-- The call of a document setter on a handle and a field name. -/
def DocSetter.call (s : DocSetter) (handle : Option zvec_doc_t) (field : Option String) :
    Ret (Option zvec_doc_t) :=
  match s with
  | DocSetter.set_string value => zvec_doc_set_string handle field value
  | DocSetter.set_int32 value => zvec_doc_set_int32 handle field value
  | DocSetter.set_int64 value => zvec_doc_set_int64 handle field value
  | DocSetter.set_float value => zvec_doc_set_float handle field value
  | DocSetter.set_double value => zvec_doc_set_double handle field value
  | DocSetter.set_bool value => zvec_doc_set_bool handle field value
  | DocSetter.set_null => zvec_doc_set_null handle field
  | DocSetter.set_vector_f32 data len => zvec_doc_set_vector_f32 handle field data len
  | DocSetter.set_sparse_vector_f32 indices values len =>
    zvec_doc_set_sparse_vector_f32 handle field indices values len

/-- Whether a setter is given a null data pointer among its own arguments. -/
def DocSetter.null_data (s : DocSetter) : Bool :=
  match s with
  | DocSetter.set_string value => value.isNone
  | DocSetter.set_vector_f32 data _ => data.isNone
  | DocSetter.set_sparse_vector_f32 indices values _ => indices.isNone || values.isNone
  | _ => false

/-- The calls of the layer that write through a document handle: the setters,
`zvec_doc_set_pk`, and the two getters that refresh the key cache. -/
inductive DocOp where
  | setter (s : DocSetter) (field : Option String)
  | set_pk (pk : Option String)
  | get_pk
  | get_string (field : Option String)
deriving DecidableEq, Repr

/-- The document record after one call. -/
def DocOp.run (handle : Option zvec_doc_t) (op : DocOp) : Option zvec_doc_t :=
  match op with
  | DocOp.setter s field => (s.call handle field).state
  | DocOp.set_pk pk => zvec_doc_set_pk handle pk
  | DocOp.get_pk => (zvec_doc_get_pk handle).2
  | DocOp.get_string field => (zvec_doc_get_string handle field).2

/-- The document record after a sequence of calls on a handle. -/
def DocOp.runs (handle : Option zvec_doc_t) (ops : List DocOp) : Option zvec_doc_t :=
  ops.foldl DocOp.run handle

/-- Whether a call is a setter on field `f` that returns status code 0 (the
status of a setter on a usable handle does not depend on the document). -/
def DocOp.sets (f : String) (op : DocOp) : Bool :=
  match op with
  | DocOp.setter s field =>
    field == some f && (s.call zvec_doc_create field).status.code == 0
  | _ => false

/-- The status-returning calls of the layer, with their arguments. -/
inductive ApiCall (C : Type) where
  | doc_set (s : DocSetter) (handle : Option zvec_doc_t) (field : Option String)
  | schema_add_field (handle : Option zvec_schema_t) (field_def : Option zvec_field_def_t)
  | schema_add_vector_field (handle : Option zvec_schema_t)
      (field_def : Option zvec_field_def_t)
  | create_and_open (path : Option String) (schema : Option zvec_schema_t)
      (options : Option zvec_collection_options_t)
      (out : Option (Option (zvec_collection_t C)))
  | open_collection (path : Option String) (options : Option zvec_collection_options_t)
      (out : Option (Option (zvec_collection_t C)))
  | destroy_data (handle : Option (zvec_collection_t C))
  | flush (handle : Option (zvec_collection_t C))
  | optimize (handle : Option (zvec_collection_t C))
  | create_index (handle : Option (zvec_collection_t C)) (field_name : Option String)
      (index_def : Option zvec_field_def_t)
  | drop_index (handle : Option (zvec_collection_t C)) (field_name : Option String)
  | insert (handle : Option (zvec_collection_t C)) (docs : Option (List zvec_doc_t))
      (count : Nat)
  | upsert (handle : Option (zvec_collection_t C)) (docs : Option (List zvec_doc_t))
      (count : Nat)
  | update (handle : Option (zvec_collection_t C)) (docs : Option (List zvec_doc_t))
      (count : Nat)
  | delete (handle : Option (zvec_collection_t C)) (ids : Option (List String))
      (count : Nat)
  | delete_by_filter (handle : Option (zvec_collection_t C)) (filter : Option String)
  | query (handle : Option (zvec_collection_t C)) (query : Option zvec_query_t)
      (out : Option (Option zvec_result_t))
  | fetch (handle : Option (zvec_collection_t C)) (ids : Option (List String))
      (count : Nat) (out : Option (Option zvec_result_t))

/-- The status a call returns and the engine entry points it invoked. -/
def ApiCall.outcome {C : Type} (R : SchemaRules) (E : Engine C) (a : ApiCall C) :
    zvec_status_t × List EngineCall :=
  match a with
  | ApiCall.doc_set s handle field =>
    ((s.call handle field).status, (s.call handle field).calls)
  | ApiCall.schema_add_field handle field_def =>
    ((zvec_schema_add_field R handle field_def).status,
     (zvec_schema_add_field R handle field_def).calls)
  | ApiCall.schema_add_vector_field handle field_def =>
    ((zvec_schema_add_vector_field R handle field_def).status,
     (zvec_schema_add_vector_field R handle field_def).calls)
  | ApiCall.create_and_open path schema options out =>
    ((zvec_collection_create_and_open E path schema options out).status,
     (zvec_collection_create_and_open E path schema options out).calls)
  | ApiCall.open_collection path options out =>
    ((zvec_collection_open E path options out).status,
     (zvec_collection_open E path options out).calls)
  | ApiCall.destroy_data handle =>
    ((zvec_collection_destroy_data E handle).status,
     (zvec_collection_destroy_data E handle).calls)
  | ApiCall.flush handle =>
    ((zvec_collection_flush E handle).status, (zvec_collection_flush E handle).calls)
  | ApiCall.optimize handle =>
    ((zvec_collection_optimize E handle).status, (zvec_collection_optimize E handle).calls)
  | ApiCall.create_index handle field_name index_def =>
    ((zvec_collection_create_index E handle field_name index_def).status,
     (zvec_collection_create_index E handle field_name index_def).calls)
  | ApiCall.drop_index handle field_name =>
    ((zvec_collection_drop_index E handle field_name).status,
     (zvec_collection_drop_index E handle field_name).calls)
  | ApiCall.insert handle docs count =>
    ((zvec_collection_insert E handle docs count).status,
     (zvec_collection_insert E handle docs count).calls)
  | ApiCall.upsert handle docs count =>
    ((zvec_collection_upsert E handle docs count).status,
     (zvec_collection_upsert E handle docs count).calls)
  | ApiCall.update handle docs count =>
    ((zvec_collection_update E handle docs count).status,
     (zvec_collection_update E handle docs count).calls)
  | ApiCall.delete handle ids count =>
    ((zvec_collection_delete E handle ids count).status,
     (zvec_collection_delete E handle ids count).calls)
  | ApiCall.delete_by_filter handle filter =>
    ((zvec_collection_delete_by_filter E handle filter).status,
     (zvec_collection_delete_by_filter E handle filter).calls)
  | ApiCall.query handle q out =>
    ((zvec_collection_query E handle q out).status,
     (zvec_collection_query E handle q out).calls)
  | ApiCall.fetch handle ids count out =>
    ((zvec_collection_fetch E handle ids count out).status,
     (zvec_collection_fetch E handle ids count out).calls)

/-- Whether one of the pointer arguments of a call (handle, name, descriptor
or its name, batch array, filter, query, out-parameter, options, data) is
null. -/
def ApiCall.null_argument {C : Type} (a : ApiCall C) : Bool :=
  match a with
  | ApiCall.doc_set s handle field => handle.isNone || field.isNone || s.null_data
  | ApiCall.schema_add_field handle field_def =>
    handle.isNone || field_def.isNone ||
      (match field_def with | some d => d.name.isNone | none => true)
  | ApiCall.schema_add_vector_field handle field_def =>
    handle.isNone || field_def.isNone ||
      (match field_def with | some d => d.name.isNone | none => true)
  | ApiCall.create_and_open path schema options out =>
    path.isNone || schema.isNone || options.isNone || out.isNone
  | ApiCall.open_collection path options out => path.isNone || options.isNone || out.isNone
  | ApiCall.destroy_data handle => handle.isNone
  | ApiCall.flush handle => handle.isNone
  | ApiCall.optimize handle => handle.isNone
  | ApiCall.create_index handle field_name index_def =>
    handle.isNone || field_name.isNone || index_def.isNone
  | ApiCall.drop_index handle field_name => handle.isNone || field_name.isNone
  | ApiCall.insert handle docs _ => handle.isNone || docs.isNone
  | ApiCall.upsert handle docs _ => handle.isNone || docs.isNone
  | ApiCall.update handle docs _ => handle.isNone || docs.isNone
  | ApiCall.delete handle ids _ => handle.isNone || ids.isNone
  | ApiCall.delete_by_filter handle filter => handle.isNone || filter.isNone
  | ApiCall.query handle q out => handle.isNone || q.isNone || out.isNone
  | ApiCall.fetch handle ids _ out => handle.isNone || ids.isNone || out.isNone

/-- Whether a call is a batch operation (insert, upsert, update, delete) on a
usable collection handle that is given a null batch array. -/
def ApiCall.null_batch {C : Type} (a : ApiCall C) : Bool :=
  match a with
  | ApiCall.insert handle docs _ => (zvec_collection_t.live handle).isSome && docs.isNone
  | ApiCall.upsert handle docs _ => (zvec_collection_t.live handle).isSome && docs.isNone
  | ApiCall.update handle docs _ => (zvec_collection_t.live handle).isSome && docs.isNone
  | ApiCall.delete handle ids _ => (zvec_collection_t.live handle).isSome && ids.isNone
  | _ => false

/-- The message literals of the locally synthesized statuses of `zvec_c.cc`. -/
def static_messages : List String :=
  ["null argument", "invalid field definition", "not a vector field type", "null schema",
   "null handle", "null field_name", "null index_def", "invalid index definition",
   "null filter", "null query", "null out"]

/-- What a batch call reports of the per-item statuses the engine returned, as
far as the caller can read it: the code of the first status that is not a
success, whatever follows it, together with a non-null message pointer, and
code 0 with a null message exactly when every status is a success. -/
def first_failure_code_wins (st : zvec_status_t) (statuses : List Status) : Prop :=
  (∀ (pre : List Status) (s : Status) (post : List Status),
    statuses = pre ++ s :: post → (∀ t ∈ pre, t.ok = true) → s.ok = false →
    st.code = s.code ∧ st.message ≠ none) ∧
  ((st.code = 0 ∧ st.message = none) ↔ ∀ t ∈ statuses, t.ok = true) ∧
  (st.code = 0 ↔ ∀ t ∈ statuses, t.ok = true)

/-- The per-item status of the in-memory engine below: a document or key with
an empty primary key is refused with code 3. -/
def memory_item_status (pk : String) : Status :=
  if pk = "" then ⟨3, "empty primary key"⟩ else ⟨0, ""⟩

/-- A small in-memory engine, used to instantiate the statements on concrete
inputs: a collection is the list of the documents it stores, an empty path
cannot be opened, and a batch answers one status per item. -/
def memory_engine : Engine (List Doc) where
  CreateAndOpen := fun p _ => if p = "" then Except.error ⟨3, "empty path"⟩ else Except.ok []
  Open := fun p => if p = "" then Except.error ⟨1, "not found"⟩ else Except.ok []
  Destroy := fun _ => (⟨0, ""⟩, [])
  Flush := fun c => (⟨0, ""⟩, c)
  Optimize := fun c => (⟨0, ""⟩, c)
  CreateIndex := fun c _ _ => (⟨0, ""⟩, c)
  DropIndex := fun c _ => (⟨0, ""⟩, c)
  Insert := fun c ds =>
    (Except.ok (ds.map (fun d => memory_item_status d.pk)), c ++ ds.filter (fun d => d.pk != ""))
  Upsert := fun c ds =>
    (Except.ok (ds.map (fun d => memory_item_status d.pk)), c ++ ds.filter (fun d => d.pk != ""))
  Update := fun c ds => (Except.ok (ds.map (fun d => memory_item_status d.pk)), c)
  Delete := fun c pks =>
    (Except.ok (pks.map memory_item_status), c.filter (fun d => !pks.contains d.pk))
  DeleteByFilter := fun c _ => (⟨0, ""⟩, c)
  Query := fun c _ => (Except.ok (c.map some), c)
  Fetch := fun c pks =>
    (Except.ok (pks.map (fun k => (k, c.find? (fun d => d.pk == k)))), c)

/-- The schema rules of the in-memory engine: a duplicate field name is
reported with code 2, and the vector data types are the tags from 22 on. -/
def memory_rules : SchemaRules := ⟨⟨2, "duplicate field"⟩, rfl, fun t => decide (22 ≤ t)⟩

/-- The mutators of the layer on a query handle, with their arguments other
than the handle. -/
inductive QueryOp where
  | set_topk (topk : Int)
  | set_field_name (field_name : Option String)
  | set_vector (data : Option (List F32)) (len : Nat)
  | set_filter (filter : Option String)
  | set_include_vector (incl : Int)
  | set_output_fields (fields : Option (List String)) (count : Nat)
  | set_ef_search (ef : Int)
  | set_n_probe (n_probe : Int)
deriving DecidableEq, Repr

/-- The query record after one mutator call. -/
def QueryOp.run (handle : Option zvec_query_t) (op : QueryOp) : Option zvec_query_t :=
  match op with
  | QueryOp.set_topk topk => zvec_query_set_topk handle topk
  | QueryOp.set_field_name field_name => zvec_query_set_field_name handle field_name
  | QueryOp.set_vector data len => zvec_query_set_vector handle data len
  | QueryOp.set_filter filter => zvec_query_set_filter handle filter
  | QueryOp.set_include_vector incl => zvec_query_set_include_vector handle incl
  | QueryOp.set_output_fields fields count => zvec_query_set_output_fields handle fields count
  | QueryOp.set_ef_search ef => zvec_query_set_ef_search handle ef
  | QueryOp.set_n_probe n_probe => zvec_query_set_n_probe handle n_probe

/-- The query record after a sequence of mutator calls on a handle. -/
def QueryOp.runs (handle : Option zvec_query_t) (ops : List QueryOp) : Option zvec_query_t :=
  ops.foldl QueryOp.run handle

/-- Whether index parameters belong to a vector-only family (graph-based,
inverted-list or flat). -/
def IndexParams.vector_only (p : IndexParams) : Bool :=
  match p with
  | IndexParams.invert => false
  | _ => true

/-- An engine whose collection is its schema, used to instantiate the index
statements on concrete inputs: creating a collection keeps the schema given,
and the engine itself refuses a vector-only index on a field that is unknown
or not declared with a vector data type. -/
def schema_engine : Engine CollectionSchema where
  CreateAndOpen := fun p s => if p = "" then Except.error ⟨3, "empty path"⟩ else Except.ok s
  Open := fun _ => Except.error ⟨1, "not found"⟩
  Destroy := fun c => (⟨0, ""⟩, c)
  Flush := fun c => (⟨0, ""⟩, c)
  Optimize := fun c => (⟨0, ""⟩, c)
  CreateIndex := fun c name p =>
    match c.fields.find? (fun g => g.name == name) with
    | none => (⟨1, "no such field"⟩, c)
    | some g =>
      if p.vector_only && !memory_rules.is_vector_field g.data_type then
        (⟨3, "not a vector field"⟩, c)
      else (⟨0, ""⟩, c)
  DropIndex := fun c name =>
    if c.fields.any (fun g => g.name == name) then (⟨0, ""⟩, c) else (⟨1, "no such field"⟩, c)
  Insert := fun c ds => (Except.ok (ds.map (fun d => memory_item_status d.pk)), c)
  Upsert := fun c ds => (Except.ok (ds.map (fun d => memory_item_status d.pk)), c)
  Update := fun c ds => (Except.ok (ds.map (fun d => memory_item_status d.pk)), c)
  Delete := fun c pks => (Except.ok (pks.map memory_item_status), c)
  DeleteByFilter := fun c _ => (⟨0, ""⟩, c)
  Query := fun c _ => (Except.ok [], c)
  Fetch := fun c _ => (Except.ok [], c)

/-! ## Lemmas on the document model -/

theorem Doc.lookup_set_same (d : Doc) (f : String) (v : Value) :
    (d.set f v).fields.lookup f = some v := by
  simp [Doc.set, List.lookup]

theorem lookup_filter_other (l : List (String × Value)) (f g : String) (h : f ≠ g) :
    (l.filter (fun p => p.1 != g)).lookup f = l.lookup f := by
  induction l with
  | nil => rfl
  | cons p rest ih =>
    obtain ⟨k, v⟩ := p
    by_cases hk : k = g
    · subst hk
      have hfk : (f == k) = false := by simpa using h
      simp [List.filter, List.lookup, hfk, ih]
    · have hkg : (k != g) = true := by simpa using hk
      simp only [List.filter, hkg, List.lookup, ih]

theorem Doc.lookup_set_other (d : Doc) (f g : String) (v : Value) (h : f ≠ g) :
    (d.set g v).fields.lookup f = d.fields.lookup f := by
  have hfg : (f == g) = false := by simpa using h
  simp [Doc.set, List.lookup, hfg, lookup_filter_other _ f g h]

theorem Doc.has_set_same (d : Doc) (f : String) (v : Value) : (d.set f v).has f = true := by
  simp [Doc.has, Doc.lookup_set_same]

theorem Doc.has_set_other (d : Doc) (f g : String) (v : Value) (h : f ≠ g) :
    (d.set g v).has f = d.has f := by
  simp [Doc.has, Doc.lookup_set_other d f g v h]

theorem DocSetter.call_null (s : DocSetter) (handle : Option zvec_doc_t)
    (field : Option String) (h : handle = none ∨ field = none) :
    s.call handle field = ⟨⟨2, some "null argument"⟩, handle, [], false⟩ := by
  rcases h with h | h
  · subst h
    cases s <;> simp [DocSetter.call, zvec_doc_set_string, zvec_doc_set_int32,
      zvec_doc_set_int64, zvec_doc_set_float, zvec_doc_set_double, zvec_doc_set_bool,
      zvec_doc_set_null, zvec_doc_set_vector_f32, zvec_doc_set_sparse_vector_f32]
  · subst h
    cases s <;> cases handle <;> simp [DocSetter.call, zvec_doc_set_string,
      zvec_doc_set_int32, zvec_doc_set_int64, zvec_doc_set_float, zvec_doc_set_double,
      zvec_doc_set_bool, zvec_doc_set_null, zvec_doc_set_vector_f32,
      zvec_doc_set_sparse_vector_f32]

/-- A setter on a usable handle and a non-null field name either stores a value
under that name through one engine call and returns `ok_status`, or returns
code 2 and leaves the record as it was. -/
theorem DocSetter.call_some (s : DocSetter) (h : zvec_doc_t) (g : String) :
    (∃ v c, s.call (some h) (some g) =
        ⟨ok_status, some ⟨h.doc.set g v, h.pk_cache, h.vector_cache⟩, [c], false⟩) ∨
    s.call (some h) (some g) = ⟨⟨2, some "null argument"⟩, some h, [], false⟩ := by
  cases s with
  | set_string value => exact Or.inl ⟨_, _, rfl⟩
  | set_int32 value => exact Or.inl ⟨_, _, rfl⟩
  | set_int64 value => exact Or.inl ⟨_, _, rfl⟩
  | set_float value => exact Or.inl ⟨_, _, rfl⟩
  | set_double value => exact Or.inl ⟨_, _, rfl⟩
  | set_bool value => exact Or.inl ⟨_, _, rfl⟩
  | set_null => exact Or.inl ⟨Value.null, _, rfl⟩
  | set_vector_f32 data len =>
    cases data with
    | none => exact Or.inr rfl
    | some xs => exact Or.inl ⟨_, _, rfl⟩
  | set_sparse_vector_f32 indices values len =>
    cases indices with
    | none => exact Or.inr rfl
    | some is =>
      cases values with
      | none => exact Or.inr rfl
      | some vs => exact Or.inl ⟨_, _, rfl⟩

theorem DocSetter.status_indep (s : DocSetter) (h h2 : zvec_doc_t) (g : String) :
    (s.call (some h) (some g)).status = (s.call (some h2) (some g)).status := by
  cases s with
  | set_vector_f32 data len =>
    cases data <;> simp [DocSetter.call, zvec_doc_set_vector_f32]
  | set_sparse_vector_f32 indices values len =>
    cases indices <;> cases values <;> simp [DocSetter.call, zvec_doc_set_sparse_vector_f32]
  | _ => simp [DocSetter.call, zvec_doc_set_string, zvec_doc_set_int32,
      zvec_doc_set_int64, zvec_doc_set_float, zvec_doc_set_double, zvec_doc_set_bool,
      zvec_doc_set_null]

theorem DocOp.run_has (h : zvec_doc_t) (f : String) (op : DocOp) :
    ∃ h2, DocOp.run (some h) op = some h2 ∧ h2.doc.has f = (h.doc.has f || op.sets f) := by
  cases op with
  | setter s field =>
    cases field with
    | none =>
      refine ⟨h, ?_, ?_⟩
      · simp [DocOp.run, DocSetter.call_null s (some h) none (Or.inr rfl)]
      · simp [DocOp.sets]
    | some g =>
      have hst := DocSetter.status_indep s ⟨Doc.empty, "", []⟩ h g
      rcases DocSetter.call_some s h g with ⟨v, c, hv⟩ | hv
      · refine ⟨⟨h.doc.set g v, h.pk_cache, h.vector_cache⟩, ?_, ?_⟩
        · simp [DocOp.run, hv]
        · by_cases hfg : f = g
          · subst hfg
            simp [DocOp.sets, zvec_doc_create, hst, hv, Doc.has_set_same, ok_status]
          · have hgf : ¬ g = f := fun e => hfg e.symm
            simp [DocOp.sets, Doc.has_set_other _ f g v hfg, hgf]
      · refine ⟨h, ?_, ?_⟩
        · simp [DocOp.run, hv]
        · simp [DocOp.sets, zvec_doc_create, hst, hv]
  | set_pk pk =>
    cases pk with
    | none => exact ⟨h, by simp [DocOp.run, zvec_doc_set_pk], by simp [DocOp.sets]⟩
    | some p =>
      exact ⟨⟨h.doc.set_pk p, p, h.vector_cache⟩, rfl,
        by simp [DocOp.sets, Doc.set_pk, Doc.has]⟩
  | get_pk => exact ⟨⟨h.doc, h.doc.pk, h.vector_cache⟩, rfl, by simp [DocOp.sets]⟩
  | get_string field =>
    cases field with
    | none => exact ⟨h, by simp [DocOp.run, zvec_doc_get_string], by simp [DocOp.sets]⟩
    | some g =>
      cases hg : h.doc.get_string g with
      | none => exact ⟨h, by simp [DocOp.run, zvec_doc_get_string, hg], by simp [DocOp.sets]⟩
      | some v =>
        exact ⟨⟨h.doc, v, h.vector_cache⟩, by simp [DocOp.run, zvec_doc_get_string, hg],
          by simp [DocOp.sets]⟩

theorem DocOp.runs_has (f : String) (ops : List DocOp) (h : zvec_doc_t) :
    zvec_doc_has_field (DocOp.runs (some h) ops) (some f) =
      if h.doc.has f || ops.any (DocOp.sets f) then 1 else 0 := by
  induction ops generalizing h with
  | nil => simp [DocOp.runs, zvec_doc_has_field]
  | cons op rest ih =>
    obtain ⟨h2, hrun, hhas⟩ := DocOp.run_has h f op
    have := ih h2
    simp only [DocOp.runs, List.foldl_cons, hrun] at this ⊢
    rw [this, hhas]
    simp [Bool.or_assoc]

/-! ## Document round trips and presence -/

/-- C1, as stated, fails for int32 (and float): the layer declares no
`get_int32` and no `get_float`.  After `zvec_doc_set_int32` of 7 on field "f"
of a fresh document none of the four getters of the layer returns 7: the
int64, double and bool getters return their zero and the string getter
returns null; the same happens after `zvec_doc_set_float`. -/
theorem C1_int32_float_not_read_back :
    zvec_doc_get_int64 (zvec_doc_set_int32 zvec_doc_create (some "f") 7).state (some "f") = 0 ∧
    zvec_doc_get_double (zvec_doc_set_int32 zvec_doc_create (some "f") 7).state (some "f") = 0 ∧
    zvec_doc_get_bool (zvec_doc_set_int32 zvec_doc_create (some "f") 7).state (some "f") = 0 ∧
    (zvec_doc_get_string (zvec_doc_set_int32 zvec_doc_create (some "f") 7).state
      (some "f")).1 = none ∧
    zvec_doc_get_double (zvec_doc_set_float zvec_doc_create (some "f") 1065353216).state
      (some "f") = 0 ∧
    zvec_doc_get_int64 (zvec_doc_set_float zvec_doc_create (some "f") 1065353216).state
      (some "f") = 0 := by
  decide

/-- C1, amended: for string, int64, double and bool, on every usable document
handle and every non-null field name, the setter followed by the getter of the
same type returns the value set: a non-null string unchanged (a null string
reads back as the empty string), an int64 and a double unchanged, and for
bool the getter returns 1 when the `int` passed to the setter is non-zero and
0 when it is zero, hence 0 and 1 unchanged. -/
theorem C1_scalar_round_trip (d : zvec_doc_t) (f : String) :
    (∀ v : String,
      (zvec_doc_get_string (zvec_doc_set_string (some d) (some f) (some v)).state
        (some f)).1 = some v) ∧
    (zvec_doc_get_string (zvec_doc_set_string (some d) (some f) none).state
        (some f)).1 = some "" ∧
    (∀ v : Int,
      zvec_doc_get_int64 (zvec_doc_set_int64 (some d) (some f) v).state (some f) = v) ∧
    (∀ v : F64,
      zvec_doc_get_double (zvec_doc_set_double (some d) (some f) v).state (some f) = v) ∧
    (∀ v : Int,
      zvec_doc_get_bool (zvec_doc_set_bool (some d) (some f) v).state (some f) =
        if v = 0 then 0 else 1) ∧
    zvec_doc_get_bool (zvec_doc_set_bool (some d) (some f) 0).state (some f) = 0 ∧
    zvec_doc_get_bool (zvec_doc_set_bool (some d) (some f) 1).state (some f) = 1 := by
  refine ⟨?_, ?_, ?_, ?_, ?_, ?_, ?_⟩
  · intro v
    simp [zvec_doc_set_string, zvec_doc_get_string, Doc.get_string, Doc.lookup_set_same]
  · simp [zvec_doc_set_string, zvec_doc_get_string, Doc.get_string, Doc.lookup_set_same]
  · intro v
    simp [zvec_doc_set_int64, zvec_doc_get_int64, Doc.get_int64, Doc.lookup_set_same]
  · intro v
    simp [zvec_doc_set_double, zvec_doc_get_double, Doc.get_double, Doc.lookup_set_same]
  · intro v
    by_cases hv : v = 0 <;>
      simp [zvec_doc_set_bool, zvec_doc_get_bool, Doc.get_bool, Doc.lookup_set_same, hv]
  · simp [zvec_doc_set_bool, zvec_doc_get_bool, Doc.get_bool, Doc.lookup_set_same]
  · simp [zvec_doc_set_bool, zvec_doc_get_bool, Doc.get_bool, Doc.lookup_set_same]

/-- C2: on a usable document handle and a non-null field name, setting a dense
vector from an array `x` of (at least) `N` floats succeeds, and reading the
field back into a buffer `out` of capacity `M` returns `min N M`, writes the
first `min N M` elements of `x` in order to the start of the buffer, and
leaves the rest of the buffer as it was. -/
theorem C2_dense_vector_round_trip (d : zvec_doc_t) (f : String) (x out : List F32)
    (N M : Nat) (hx : N ≤ x.length) (hout : M ≤ out.length) :
    (zvec_doc_set_vector_f32 (some d) (some f) (some x) N).status = ok_status ∧
    (zvec_doc_get_vector_f32 (zvec_doc_set_vector_f32 (some d) (some f) (some x) N).state
      (some f) (some out) M).1 = min N M ∧
    ∃ out2,
      (zvec_doc_get_vector_f32 (zvec_doc_set_vector_f32 (some d) (some f) (some x) N).state
        (some f) (some out) M).2 = some out2 ∧
      out2.take (min N M) = x.take (min N M) ∧
      out2.drop (min N M) = out.drop (min N M) ∧
      out2.length = out.length := by
  have hlen : (x.take N).length = N := by simp [hx]
  have hmin : min M N = min N M := Nat.min_comm M N
  have hle : min N M ≤ out.length := le_trans (Nat.min_le_right N M) hout
  have htl : ((x.take N).take (min N M)).length = min N M := by
    simp [List.length_take]; omega
  refine ⟨rfl, ?_, ?_⟩
  · simp [zvec_doc_set_vector_f32, zvec_doc_get_vector_f32, Doc.get_vector_f32,
      Doc.lookup_set_same, hlen, hmin]
  · refine ⟨(x.take N).take (min N M) ++ out.drop (min N M), ?_, ?_, ?_, ?_⟩
    · simp [zvec_doc_set_vector_f32, zvec_doc_get_vector_f32, Doc.get_vector_f32,
        Doc.lookup_set_same, hlen, hmin]
    · rw [List.take_append_of_le_length (le_of_eq htl.symm), List.take_take, List.take_take]
      simp
    · rw [List.drop_append_of_le_length (le_of_eq htl.symm)]
      rw [List.drop_eq_nil_of_le (le_of_eq htl)]
      simp
    · rw [List.length_append, htl, List.length_drop]
      omega

/-- C2 at a concrete input: a vector of 3 floats read back into a buffer of 2. -/
theorem C2_dense_vector_round_trip_witness :
    (zvec_doc_get_vector_f32
      (zvec_doc_set_vector_f32 zvec_doc_create (some "v") (some [11, 22, 33]) 3).state
      (some "v") (some [0, 0]) 2).1 = min 3 2 :=
  (C2_dense_vector_round_trip ⟨Doc.empty, "", []⟩ "v" [11, 22, 33] [0, 0] 3 2
    (by decide) (by decide)).2.1

/-- C3: on a usable document handle and a non-null field name `f`,
`zvec_doc_has_field` returns 1 right after any of the nine setters (the eight
value setters and `zvec_doc_set_null`) returned status code 0 on `f`; and on a
document obtained from `zvec_doc_create` and then driven through any sequence
of calls of the layer none of which is a setter returning code 0 on `f`, it
returns 0. -/
theorem C3_has_field (f : String) :
    (∀ (s : DocSetter) (d : zvec_doc_t),
      (s.call (some d) (some f)).status.code = 0 →
      zvec_doc_has_field (s.call (some d) (some f)).state (some f) = 1) ∧
    (∀ ops : List DocOp, (∀ op ∈ ops, DocOp.sets f op = false) →
      zvec_doc_has_field (DocOp.runs zvec_doc_create ops) (some f) = 0) := by
  constructor
  · intro s d hcode
    rcases DocSetter.call_some s d f with ⟨v, c, hv⟩ | hv
    · simp [hv, zvec_doc_has_field, Doc.has_set_same]
    · rw [hv] at hcode
      simp at hcode
  · intro ops hops
    have hany : ops.any (DocOp.sets f) = false := by
      simpa [List.any_eq_false] using hops
    rw [zvec_doc_create, DocOp.runs_has f ops ⟨Doc.empty, "", []⟩, hany]
    simp [Doc.has, Doc.empty]

/-- C3 at concrete inputs: a dense-vector setter on "f", and a fresh document
on which only "g" and the primary key were set. -/
theorem C3_has_field_witness :
    zvec_doc_has_field
      ((DocSetter.set_vector_f32 (some [1, 2]) 2).call zvec_doc_create (some "f")).state
      (some "f") = 1 ∧
    zvec_doc_has_field
      (DocOp.runs zvec_doc_create
        [DocOp.setter (DocSetter.set_int32 5) (some "g"), DocOp.set_pk (some "k"),
         DocOp.setter (DocSetter.set_vector_f32 none 2) (some "f")])
      (some "f") = 0 :=
  ⟨(C3_has_field "f").1 (DocSetter.set_vector_f32 (some [1, 2]) 2) ⟨Doc.empty, "", []⟩
      (by decide),
   (C3_has_field "f").2 _ (by decide)⟩

/-- C7: each of the nine document setters, called with a null handle or a null
field name, returns the invalid-argument status (code 2, the static message
"null argument"), invokes no engine entry point, and leaves the document
record, with every field, the primary key and the score, as it was. -/
theorem C7_setter_null_argument (s : DocSetter) (handle : Option zvec_doc_t)
    (field : Option String) (h : handle = none ∨ field = none) :
    (s.call handle field).status = ⟨2, some "null argument"⟩ ∧
    (s.call handle field).state = handle ∧
    (s.call handle field).calls = [] := by
  rw [DocSetter.call_null s handle field h]
  exact ⟨rfl, rfl, rfl⟩

/-- C7 at a concrete input: a sparse-vector setter with a null field name on a
document holding one field. -/
theorem C7_setter_null_argument_witness :
    ((DocSetter.set_sparse_vector_f32 (some [0, 3]) (some [5, 6]) 2).call
      (zvec_doc_set_int64 zvec_doc_create (some "a") 9).state none).state =
      (zvec_doc_set_int64 zvec_doc_create (some "a") 9).state :=
  (C7_setter_null_argument (DocSetter.set_sparse_vector_f32 (some [0, 3]) (some [5, 6]) 2)
    (zvec_doc_set_int64 zvec_doc_create (some "a") 9).state none (Or.inr rfl)).2.1

/-! ## Index parameters, schema, status translation -/

/-- C4, as stated, fails for negative tunables: a graph-based descriptor with
`m = -1` and `ef_construction = -5` is built with degree 16 and construction
breadth 200, and an inverted-list descriptor with `n_lists = -3` with list
count 1024, not with the explicit non-zero values given. -/
theorem C4_negative_tunable_defaulted :
    create_index_params
        (some ⟨some "v", 23, 4, 0, ZVEC_INDEX_TYPE_HNSW, 1, -1, -5, 0, 0⟩) =
      some (IndexParams.hnsw 1 16 200 0) ∧
    create_index_params
        (some ⟨some "v", 23, 4, 0, ZVEC_INDEX_TYPE_IVF, 1, 0, 0, -3, 0⟩) =
      some (IndexParams.ivf 1 1024 10 false 0) := by
  decide

/-- C4, amended: for every field descriptor, `create_index_params` builds, for
index-type HNSW, graph-based parameters whose degree is 16 when `m` is zero or
negative and `m` itself when `m` is positive, and whose construction breadth is
200 when `ef_construction` is zero or negative and `ef_construction` itself
when it is positive; for index-type IVF, inverted-list parameters whose list
count is 1024 when `n_lists` is zero or negative and `n_lists` itself when it
is positive.  Metric and quantization are carried over as given. -/
theorem C4_index_params_defaults (d : zvec_field_def_t) :
    (d.index_type = ZVEC_INDEX_TYPE_HNSW →
      ∃ m ef, create_index_params (some d) =
          some (IndexParams.hnsw d.metric_type m ef d.quantize_type) ∧
        (d.m ≤ 0 → m = 16) ∧ (0 < d.m → m = d.m) ∧
        (d.ef_construction ≤ 0 → ef = 200) ∧
        (0 < d.ef_construction → ef = d.ef_construction)) ∧
    (d.index_type = ZVEC_INDEX_TYPE_IVF →
      ∃ n, create_index_params (some d) =
          some (IndexParams.ivf d.metric_type n 10 false d.quantize_type) ∧
        (d.n_lists ≤ 0 → n = 1024) ∧ (0 < d.n_lists → n = d.n_lists)) := by
  constructor
  · intro ht
    refine ⟨if d.m > 0 then d.m else 16,
      if d.ef_construction > 0 then d.ef_construction else 200, ?_, ?_, ?_, ?_, ?_⟩
    · simp [create_index_params, ht]
    · intro h
      simp [not_lt.mpr h]
    · intro h
      simp [h]
    · intro h
      simp [not_lt.mpr h]
    · intro h
      simp [h]
  · intro ht
    refine ⟨if d.n_lists > 0 then d.n_lists else 1024, ?_, ?_, ?_⟩
    · simp [create_index_params, ht, ZVEC_INDEX_TYPE_IVF, ZVEC_INDEX_TYPE_HNSW]
    · intro h
      simp [not_lt.mpr h]
    · intro h
      simp [h]

/-- C4, amended, at concrete inputs: a graph-based descriptor with `m = 0` and
`ef_construction = 64`, and an inverted-list descriptor with `n_lists = 0`. -/
theorem C4_index_params_defaults_witness :
    create_index_params
        (some ⟨some "v", 23, 4, 0, ZVEC_INDEX_TYPE_HNSW, 1, 0, 64, 0, 0⟩) =
      some (IndexParams.hnsw 1 16 64 0) ∧
    create_index_params
        (some ⟨some "v", 23, 4, 0, ZVEC_INDEX_TYPE_IVF, 2, 0, 0, 0, 0⟩) =
      some (IndexParams.ivf 2 1024 10 false 0) := by
  obtain ⟨m, ef, h, hm, _, _, hef⟩ :=
    (C4_index_params_defaults ⟨some "v", 23, 4, 0, ZVEC_INDEX_TYPE_HNSW, 1, 0, 64, 0, 0⟩).1 rfl
  obtain ⟨n, h2, hn, _⟩ :=
    (C4_index_params_defaults ⟨some "v", 23, 4, 0, ZVEC_INDEX_TYPE_IVF, 2, 0, 0, 0, 0⟩).2 rfl
  rw [h, h2, hm (by decide), hef (by decide), hn (by decide)]
  exact ⟨rfl, rfl⟩

theorem create_field_schema_some (d : zvec_field_def_t) (n : String) (h : d.name = some n) :
    create_field_schema (some d) =
      some ⟨n, d.data_type, d.dimension, d.nullable != 0,
        if d.index_type ≠ ZVEC_INDEX_TYPE_UNDEFINED then create_index_params (some d)
        else none⟩ := by
  unfold create_field_schema
  simp only [h]
  by_cases hi : d.index_type ≠ ZVEC_INDEX_TYPE_UNDEFINED
  · cases hp : create_index_params (some d) <;> simp [hi, FieldSchema.set_index_params]
  · simp [hi]

theorem create_field_schema_name (d : zvec_field_def_t) (n : String) (h : d.name = some n) :
    ∃ fs, create_field_schema (some d) = some fs ∧ fs.name = n :=
  ⟨_, create_field_schema_some d n h, rfl⟩

/-- C5: on a schema handle obtained from `zvec_schema_create` with a non-null
name, for any two field descriptors with non-null names, the first
`zvec_schema_add_field` returns code 0; when the names are equal the second
returns a non-zero code (and the schema keeps one field); when the names are
distinct the second returns code 0 as well and `zvec_schema_get_field_count`
is then 2. -/
theorem C5_schema_unique_names (R : SchemaRules) (name : String) (d1 d2 : zvec_field_def_t)
    (n1 n2 : String) (h1 : d1.name = some n1) (h2 : d2.name = some n2) :
    (zvec_schema_add_field R (zvec_schema_create (some name)) (some d1)).status.code = 0 ∧
    (n1 = n2 →
      (zvec_schema_add_field R
        (zvec_schema_add_field R (zvec_schema_create (some name)) (some d1)).state
        (some d2)).status.code ≠ 0 ∧
      zvec_schema_get_field_count
        (zvec_schema_add_field R
          (zvec_schema_add_field R (zvec_schema_create (some name)) (some d1)).state
          (some d2)).state = 1) ∧
    (n1 ≠ n2 →
      (zvec_schema_add_field R
        (zvec_schema_add_field R (zvec_schema_create (some name)) (some d1)).state
        (some d2)).status.code = 0 ∧
      zvec_schema_get_field_count
        (zvec_schema_add_field R
          (zvec_schema_add_field R (zvec_schema_create (some name)) (some d1)).state
          (some d2)).state = 2) := by
  obtain ⟨f1, hf1, hn1⟩ := create_field_schema_name d1 n1 h1
  obtain ⟨f2, hf2, hn2⟩ := create_field_schema_name d2 n2 h2
  have hdup : R.duplicate.code ≠ 0 := by
    have := R.duplicate_fails
    simpa [Status.ok] using this
  have hfirst : zvec_schema_add_field R (zvec_schema_create (some name)) (some d1) =
      ⟨⟨0, none⟩, some ⟨⟨name, [f1]⟩, ""⟩, [EngineCall.schema_add_field], false⟩ := by
    simp [zvec_schema_add_field, zvec_schema_create, hf1, CollectionSchema.add_field,
      to_c_status, Status.ok]
  rw [hfirst]
  refine ⟨rfl, ?_, ?_⟩
  · intro hn
    have hsame : (f1.name == f2.name) = true := by simp [hn1, hn2, hn]
    simp [zvec_schema_add_field, hf2, CollectionSchema.add_field, hsame, to_c_status,
      R.duplicate_fails, hdup, zvec_schema_get_field_count]
  · intro hn
    have hdiff : (f1.name == f2.name) = false := by simp [hn1, hn2, hn]
    simp [zvec_schema_add_field, hf2, CollectionSchema.add_field, hdiff, to_c_status,
      Status.ok, zvec_schema_get_field_count]

/-- C5 at concrete inputs: two descriptors named "id" and "vec" on a fresh
schema, with an engine that reports a duplicate as code 2. -/
theorem C5_schema_unique_names_witness :
    zvec_schema_get_field_count
      (zvec_schema_add_field ⟨⟨2, "duplicate field"⟩, rfl, fun t => decide (22 ≤ t)⟩
        (zvec_schema_add_field ⟨⟨2, "duplicate field"⟩, rfl, fun t => decide (22 ≤ t)⟩
          (zvec_schema_create (some "s")) (some ⟨some "id", 2, 0, 0, 0, 0, 0, 0, 0, 0⟩)).state
        (some ⟨some "vec", 23, 4, 0, 1, 1, 0, 0, 0, 0⟩)).state = 2 :=
  ((C5_schema_unique_names ⟨⟨2, "duplicate field"⟩, rfl, fun t => decide (22 ≤ t)⟩ "s"
    ⟨some "id", 2, 0, 0, 0, 0, 0, 0, 0, 0⟩ ⟨some "vec", 23, 4, 0, 1, 1, 0, 0, 0, 0⟩
    "id" "vec" rfl rfl).2.2 (by decide)).2

/-- C6: for every engine outcome `s`, `to_c_status s` has code 0 and a null
message exactly when `s` is a success; when `s` is a failure the returned code
is the engine code of `s`, which is non-zero, and the message is the engine
message of `s`. -/
theorem C6_to_c_status (s : Status) :
    (((to_c_status s).code = 0 ∧ (to_c_status s).message = none) ↔ s.ok = true) ∧
    (s.ok = true → to_c_status s = ok_status) ∧
    (s.ok = false →
      (to_c_status s).code = s.code ∧ (to_c_status s).code ≠ 0 ∧
      (to_c_status s).message = some s.msg) := by
  by_cases h : s.code = 0 <;> simp [to_c_status, Status.ok, Status.c_str, ok_status, h]

/-- C6 at concrete inputs: a success, and a failure with code 3. -/
theorem C6_to_c_status_witness :
    to_c_status ⟨0, ""⟩ = ok_status ∧
    (to_c_status ⟨3, "bad"⟩).code = 3 ∧ (to_c_status ⟨3, "bad"⟩).message = some "bad" :=
  ⟨(C6_to_c_status ⟨0, ""⟩).2.1 rfl,
   ((C6_to_c_status ⟨3, "bad"⟩).2.2 rfl).1, ((C6_to_c_status ⟨3, "bad"⟩).2.2 rfl).2.2⟩

/-! ## Collection calls -/

theorem first_failure_all_ok (statuses : List Status) (h : ∀ t ∈ statuses, t.ok = true) :
    first_failure statuses = ok_status := by
  induction statuses with
  | nil => rfl
  | cons s rest ih =>
    have hs : s.ok = true := h s (List.mem_cons_self s rest)
    have hrest : ∀ t ∈ rest, t.ok = true := fun t ht => h t (List.mem_cons_of_mem s ht)
    simp [first_failure, hs, ih hrest]

theorem first_failure_split (pre post : List Status) (s : Status)
    (hpre : ∀ t ∈ pre, t.ok = true) (hs : s.ok = false) :
    first_failure (pre ++ s :: post) = to_c_status s := by
  induction pre with
  | nil => simp [first_failure, hs]
  | cons t rest ih =>
    have ht : t.ok = true := hpre t (List.mem_cons_self t rest)
    have hrest : ∀ u ∈ rest, u.ok = true := fun u hu => hpre u (List.mem_cons_of_mem t hu)
    simp [first_failure, ht, ih hrest]

theorem first_failure_code_zero (statuses : List Status)
    (h : (first_failure statuses).code = 0) : ∀ t ∈ statuses, t.ok = true := by
  induction statuses with
  | nil => intro t ht; cases ht
  | cons s rest ih =>
    by_cases hs : s.ok = true
    · have hrest : (first_failure rest).code = 0 := by
        simpa [first_failure, hs] using h
      intro t ht
      rcases List.mem_cons.mp ht with rfl | ht
      · exact hs
      · exact ih hrest t ht
    · have hs2 : s.ok = false := by simpa using hs
      have hne : s.code ≠ 0 := by simpa [Status.ok] using hs2
      have : s.code = 0 := by simpa [first_failure, hs2, to_c_status] using h
      exact absurd this hne

theorem first_failure_summary (statuses : List Status) :
    first_failure_code_wins (first_failure statuses) statuses := by
  refine ⟨?_, ?_, ?_⟩
  · intro pre s post hsplit hpre hs
    have hne : ¬ s.code = 0 := by simpa [Status.ok] using hs
    rw [hsplit, first_failure_split pre post s hpre hs]
    simp [to_c_status, hs, Status.c_str]
  · constructor
    · intro h
      exact first_failure_code_zero statuses h.1
    · intro h
      rw [first_failure_all_ok statuses h]
      exact ⟨rfl, rfl⟩
  · constructor
    · exact first_failure_code_zero statuses
    · intro h
      rw [first_failure_all_ok statuses h]
      rfl

theorem first_failure_message (statuses : List Status) :
    (first_failure statuses).message.isSome = true ↔ ∃ t ∈ statuses, t.ok = false := by
  induction statuses with
  | nil => simp [first_failure, ok_status]
  | cons s rest ih =>
    by_cases hs : s.ok = true
    · simp [first_failure, hs, ih]
    · have hs2 : s.ok = false := by simpa using hs
      simp [first_failure, hs2, to_c_status, Status.c_str]

/-- The code half of the batch summary, for each batch operation (insert,
upsert, update, delete) on a usable collection handle with a non-null batch
array and a non-zero count: whenever the engine answers with a list of
per-item statuses, the code of the call is the code of the first status of the
list that is not a success, whatever the later items are, it is 0 (with a null
message) exactly when every per-item status is a success, and the message of
the call dangles exactly when some per-item status is a failure. -/
theorem batch_first_failure_code {C : Type} (E : Engine C) (h : zvec_collection_t C) (c : C)
    (hc : h.ptr = some c) (count : Nat) (hcount : 0 < count) (statuses : List Status) :
    (∀ docs : List zvec_doc_t,
      (E.Insert c ((docs.take count).map (fun d => d.doc))).1 = Except.ok statuses →
      first_failure_code_wins (zvec_collection_insert E (some h) (some docs) count).status
        statuses ∧
      ((zvec_collection_insert E (some h) (some docs) count).message_dangles = true ↔
        ∃ t ∈ statuses, t.ok = false)) ∧
    (∀ docs : List zvec_doc_t,
      (E.Upsert c ((docs.take count).map (fun d => d.doc))).1 = Except.ok statuses →
      first_failure_code_wins (zvec_collection_upsert E (some h) (some docs) count).status
        statuses ∧
      ((zvec_collection_upsert E (some h) (some docs) count).message_dangles = true ↔
        ∃ t ∈ statuses, t.ok = false)) ∧
    (∀ docs : List zvec_doc_t,
      (E.Update c ((docs.take count).map (fun d => d.doc))).1 = Except.ok statuses →
      first_failure_code_wins (zvec_collection_update E (some h) (some docs) count).status
        statuses ∧
      ((zvec_collection_update E (some h) (some docs) count).message_dangles = true ↔
        ∃ t ∈ statuses, t.ok = false)) ∧
    (∀ ids : List String,
      (E.Delete c (ids.take count)).1 = Except.ok statuses →
      first_failure_code_wins (zvec_collection_delete E (some h) (some ids) count).status
        statuses ∧
      ((zvec_collection_delete E (some h) (some ids) count).message_dangles = true ↔
        ∃ t ∈ statuses, t.ok = false)) := by
  have hcount0 : count ≠ 0 := Nat.pos_iff_ne_zero.mp hcount
  have hlive : zvec_collection_t.live (some h) = some (h, c) := by
    simp [zvec_collection_t.live, hc]
  refine ⟨?_, ?_, ?_, ?_⟩
  · intro docs hE
    have hst : (zvec_collection_insert E (some h) (some docs) count).status =
        first_failure statuses := by
      simp only [zvec_collection_insert, hlive, hcount0, if_false, hE, batch_status]
    have hd : (zvec_collection_insert E (some h) (some docs) count).message_dangles =
        (first_failure statuses).message.isSome := by
      simp only [zvec_collection_insert, hlive, hcount0, if_false, hE, batch_status]
    rw [hst, hd]
    exact ⟨first_failure_summary statuses, first_failure_message statuses⟩
  · intro docs hE
    have hst : (zvec_collection_upsert E (some h) (some docs) count).status =
        first_failure statuses := by
      simp only [zvec_collection_upsert, hlive, hcount0, if_false, hE, batch_status]
    have hd : (zvec_collection_upsert E (some h) (some docs) count).message_dangles =
        (first_failure statuses).message.isSome := by
      simp only [zvec_collection_upsert, hlive, hcount0, if_false, hE, batch_status]
    rw [hst, hd]
    exact ⟨first_failure_summary statuses, first_failure_message statuses⟩
  · intro docs hE
    have hst : (zvec_collection_update E (some h) (some docs) count).status =
        first_failure statuses := by
      simp only [zvec_collection_update, hlive, hcount0, if_false, hE, batch_status]
    have hd : (zvec_collection_update E (some h) (some docs) count).message_dangles =
        (first_failure statuses).message.isSome := by
      simp only [zvec_collection_update, hlive, hcount0, if_false, hE, batch_status]
    rw [hst, hd]
    exact ⟨first_failure_summary statuses, first_failure_message statuses⟩
  · intro ids hE
    have hst : (zvec_collection_delete E (some h) (some ids) count).status =
        first_failure statuses := by
      simp only [zvec_collection_delete, hlive, hcount0, if_false, hE, batch_status]
    have hd : (zvec_collection_delete E (some h) (some ids) count).message_dangles =
        (first_failure statuses).message.isSome := by
      simp only [zvec_collection_delete, hlive, hcount0, if_false, hE, batch_status]
    rw [hst, hd]
    exact ⟨first_failure_summary statuses, first_failure_message statuses⟩

/-- C9 is not met by the code at a concrete batch.  Inserting three documents
into the in-memory engine, the second and the third with an empty primary
key, makes the engine answer the per-item statuses ok, failure 3, failure 3.
The call reaches the engine once and returns code 3, the code of the first
failure, as the claim says; but the message of the returned status is
`c_str()` of a status stored in the local `result` of the call, destroyed at
the return (zvec_c.cc:543-545), so the caller is handed a dangling pointer
and not the message of that status.  The same holds for delete with keys. -/
theorem C9_batch_failure_message_dangles :
    (zvec_collection_insert memory_engine (some ⟨some [], "p"⟩)
      (some [⟨⟨"a", 0, []⟩, "", []⟩, ⟨⟨"", 0, []⟩, "", []⟩, ⟨⟨"", 0, []⟩, "", []⟩]) 3).calls =
      [EngineCall.Insert] ∧
    (zvec_collection_insert memory_engine (some ⟨some [], "p"⟩)
      (some [⟨⟨"a", 0, []⟩, "", []⟩, ⟨⟨"", 0, []⟩, "", []⟩, ⟨⟨"", 0, []⟩, "", []⟩]) 3).status.code =
      3 ∧
    (zvec_collection_insert memory_engine (some ⟨some [], "p"⟩)
      (some [⟨⟨"a", 0, []⟩, "", []⟩, ⟨⟨"", 0, []⟩, "", []⟩, ⟨⟨"", 0, []⟩, "", []⟩])
      3).message_dangles = true ∧
    (zvec_collection_delete memory_engine (some ⟨some [], "p"⟩) (some ["a", ""]) 2).status.code =
      3 ∧
    (zvec_collection_delete memory_engine (some ⟨some [], "p"⟩) (some ["a", ""])
      2).message_dangles = true := by
  refine ⟨rfl, ?_, ?_, ?_, ?_⟩ <;> decide

/-- C10: for `zvec_collection_create_and_open` and `zvec_collection_open`, with
every combination of arguments and every engine whose failures carry a
non-success status: when the returned status has a non-zero code (a local
validation failure or an engine failure) the cell designated by the
out-parameter holds what it held before the call, and when the returned
status has code 0 the engine was reached, it returned a collection, and the
cell holds a non-null collection handle wrapping that collection.  Both
outcomes occur: whenever path, schema and out-parameter are non-null and the
engine returns a collection, the call returns the ok status and stores the
handle wrapping it with the path given; whenever the engine fails, the call
returns the non-zero code of the engine and the cell keeps its content. -/
theorem C10_out_parameter {C : Type} (E : Engine C)
    (hcreate : ∀ p s e, E.CreateAndOpen p s = Except.error e → e.ok = false)
    (hopen : ∀ p e, E.Open p = Except.error e → e.ok = false)
    (path : Option String) (schema : Option zvec_schema_t)
    (options : Option zvec_collection_options_t)
    (out : Option (Option (zvec_collection_t C))) :
    ((zvec_collection_create_and_open E path schema options out).status.code ≠ 0 →
      (zvec_collection_create_and_open E path schema options out).state = out) ∧
    ((zvec_collection_create_and_open E path schema options out).status.code = 0 →
      ∃ p sch c, path = some p ∧ schema = some sch ∧
        E.CreateAndOpen p sch.schema = Except.ok c ∧
        (zvec_collection_create_and_open E path schema options out).state =
          some (some ⟨some c, p⟩)) ∧
    ((zvec_collection_open E path options out).status.code ≠ 0 →
      (zvec_collection_open E path options out).state = out) ∧
    ((zvec_collection_open E path options out).status.code = 0 →
      ∃ p c, path = some p ∧ E.Open p = Except.ok c ∧
        (zvec_collection_open E path options out).state = some (some ⟨some c, p⟩)) ∧
    (∀ p sch cell c, E.CreateAndOpen p sch.schema = Except.ok c →
      (zvec_collection_create_and_open E (some p) (some sch) options (some cell)).status =
        ok_status ∧
      (zvec_collection_create_and_open E (some p) (some sch) options (some cell)).state =
        some (some ⟨some c, p⟩) ∧
      (zvec_collection_create_and_open E (some p) (some sch) options (some cell)).calls =
        [EngineCall.CreateAndOpen]) ∧
    (∀ p sch cell e, E.CreateAndOpen p sch.schema = Except.error e →
      (zvec_collection_create_and_open E (some p) (some sch) options (some cell)).status.code =
        e.code ∧ e.code ≠ 0 ∧
      (zvec_collection_create_and_open E (some p) (some sch) options (some cell)).state =
        some cell) ∧
    (∀ p cell c, E.Open p = Except.ok c →
      (zvec_collection_open E (some p) options (some cell)).status = ok_status ∧
      (zvec_collection_open E (some p) options (some cell)).state = some (some ⟨some c, p⟩) ∧
      (zvec_collection_open E (some p) options (some cell)).calls = [EngineCall.Open]) ∧
    (∀ p cell e, E.Open p = Except.error e →
      (zvec_collection_open E (some p) options (some cell)).status.code = e.code ∧
      e.code ≠ 0 ∧
      (zvec_collection_open E (some p) options (some cell)).state = some cell) := by
  refine ⟨?_, ?_, ?_, ?_, ?_, ?_, ?_, ?_⟩
  · intro hne
    cases path with
    | none => simp [zvec_collection_create_and_open]
    | some p =>
      cases out with
      | none => simp [zvec_collection_create_and_open]
      | some cell =>
        cases schema with
        | none => simp [zvec_collection_create_and_open]
        | some sch =>
          cases hE : E.CreateAndOpen p sch.schema with
          | error e => simp [zvec_collection_create_and_open, hE]
          | ok c => simp [zvec_collection_create_and_open, hE, ok_status] at hne
  · intro hz
    cases path with
    | none => simp [zvec_collection_create_and_open] at hz
    | some p =>
      cases out with
      | none => simp [zvec_collection_create_and_open] at hz
      | some cell =>
        cases schema with
        | none => simp [zvec_collection_create_and_open] at hz
        | some sch =>
          cases hE : E.CreateAndOpen p sch.schema with
          | error e =>
            have hk := hcreate p sch.schema e hE
            have hne : ¬ e.code = 0 := by simpa [Status.ok] using hk
            simp [zvec_collection_create_and_open, hE, to_c_status, hk, hne] at hz
          | ok c =>
            exact ⟨p, sch, c, rfl, rfl, hE, by simp [zvec_collection_create_and_open, hE]⟩
  · intro hne
    cases path with
    | none => simp [zvec_collection_open]
    | some p =>
      cases out with
      | none => simp [zvec_collection_open]
      | some cell =>
        cases hE : E.Open p with
        | error e => simp [zvec_collection_open, hE]
        | ok c => simp [zvec_collection_open, hE, ok_status] at hne
  · intro hz
    cases path with
    | none => simp [zvec_collection_open] at hz
    | some p =>
      cases out with
      | none => simp [zvec_collection_open] at hz
      | some cell =>
        cases hE : E.Open p with
        | error e =>
          have hk := hopen p e hE
          have hne : ¬ e.code = 0 := by simpa [Status.ok] using hk
          simp [zvec_collection_open, hE, to_c_status, hk, hne] at hz
        | ok c => exact ⟨p, c, rfl, hE, by simp [zvec_collection_open, hE]⟩
  · intro p sch cell c hE
    simp [zvec_collection_create_and_open, hE]
  · intro p sch cell e hE
    have hk := hcreate p sch.schema e hE
    have hne : ¬ e.code = 0 := by simpa [Status.ok] using hk
    simp [zvec_collection_create_and_open, hE, to_c_status, hk, hne]
  · intro p cell c hE
    simp [zvec_collection_open, hE]
  · intro p cell e hE
    have hk := hopen p e hE
    have hne : ¬ e.code = 0 := by simpa [Status.ok] using hk
    simp [zvec_collection_open, hE, to_c_status, hk, hne]

theorem memory_engine_create_fails (p : String) (s : CollectionSchema) (e : Status)
    (h : memory_engine.CreateAndOpen p s = Except.error e) : e.ok = false := by
  by_cases hp : p = ""
  · simp [memory_engine, hp] at h
    subst h
    rfl
  · simp [memory_engine, hp] at h

theorem memory_engine_open_fails (p : String) (e : Status)
    (h : memory_engine.Open p = Except.error e) : e.ok = false := by
  by_cases hp : p = ""
  · simp [memory_engine, hp] at h
    subst h
    rfl
  · simp [memory_engine, hp] at h

/-- C10 at concrete inputs on the in-memory engine: creating a collection at
the path "db" succeeds and stores a handle wrapping the new collection in a
cell that held null; creating one at the empty path fails and leaves the null
handle in the cell as it was. -/
theorem C10_out_parameter_witness :
    ((zvec_collection_create_and_open memory_engine (some "db")
        (some ⟨⟨"s", []⟩, ""⟩) none (some none)).status = ok_status ∧
     (zvec_collection_create_and_open memory_engine (some "db")
        (some ⟨⟨"s", []⟩, ""⟩) none (some none)).state = some (some ⟨some [], "db"⟩) ∧
     (zvec_collection_create_and_open memory_engine (some "db")
        (some ⟨⟨"s", []⟩, ""⟩) none (some none)).calls = [EngineCall.CreateAndOpen]) ∧
    (zvec_collection_create_and_open memory_engine (some "") (zvec_schema_create (some "s"))
      none (some none)).state = some none :=
  ⟨(C10_out_parameter memory_engine memory_engine_create_fails memory_engine_open_fails
      (some "db") (some ⟨⟨"s", []⟩, ""⟩) none (some none)).2.2.2.2.1
      "db" ⟨⟨"s", []⟩, ""⟩ none [] rfl,
   (C10_out_parameter memory_engine memory_engine_create_fails memory_engine_open_fails
      (some "") (zvec_schema_create (some "s")) none (some none)).1 (by decide)⟩

/-- C8, as stated, fails for a null batch array: `zvec_collection_insert` (and
likewise upsert, update and delete) on a usable collection handle with a null
array returns without reaching the engine, and the status it returns is the
canonical ok status (code 0, null message), not the sentinel code 2. -/
theorem C8_null_batch_returns_ok :
    (zvec_collection_insert memory_engine (some ⟨some [], "p"⟩) none 1).status = ⟨0, none⟩ ∧
    (zvec_collection_insert memory_engine (some ⟨some [], "p"⟩) none 1).calls = [] ∧
    (zvec_collection_delete memory_engine (some ⟨some [], "p"⟩) none 1).status = ⟨0, none⟩ ∧
    (zvec_collection_delete memory_engine (some ⟨some [], "p"⟩) none 1).calls = [] ∧
    (ApiCall.insert (some ⟨some [], "p"⟩) none 1 : ApiCall (List Doc)).null_argument = true ∧
    ((ApiCall.insert (some ⟨some [], "p"⟩) none 1 : ApiCall (List Doc)).outcome
      memory_rules memory_engine).1.code ≠ 2 := by
  refine ⟨rfl, rfl, rfl, rfl, rfl, ?_⟩
  decide

/-- C8, amended: for every status-returning call of the layer (document
setters, schema adds, collection lifecycle, index, mutation and read calls),
whenever the call returns without reaching the engine while one of its pointer
arguments is null, the returned status carries the sentinel code 2 and one of
the static messages of the layer, except when the call is insert, upsert,
update or delete on a usable collection handle with a null batch array, in
which case it returns code 0 with a null message. -/
theorem C8_local_validation_status {C : Type} (R : SchemaRules) (E : Engine C)
    (a : ApiCall C) (hlocal : (a.outcome R E).2 = []) (hnull : a.null_argument = true) :
    (a.null_batch = false →
      (a.outcome R E).1.code = 2 ∧
      ∃ m ∈ static_messages, (a.outcome R E).1.message = some m) ∧
    (a.null_batch = true → (a.outcome R E).1 = ok_status) := by
  cases a with
  | doc_set s handle field =>
    refine ⟨fun _ => ?_, fun hb => by simp [ApiCall.null_batch] at hb⟩
    cases handle with
    | none =>
      simp [ApiCall.outcome, DocSetter.call_null s none field (Or.inl rfl), static_messages]
    | some h =>
      cases field with
      | none =>
        simp [ApiCall.outcome, DocSetter.call_null s (some h) none (Or.inr rfl),
          static_messages]
      | some g =>
        rcases DocSetter.call_some s h g with ⟨v, c, hv⟩ | hv
        · simp [ApiCall.outcome, hv] at hlocal
        · simp [ApiCall.outcome, hv, static_messages]
  | schema_add_field handle field_def =>
    refine ⟨fun _ => ?_, fun hb => by simp [ApiCall.null_batch] at hb⟩
    rcases handle with _ | h <;> rcases field_def with _ | d <;>
      try simp [ApiCall.outcome, zvec_schema_add_field, static_messages]
    cases hf : create_field_schema (some d) with
    | none => simp [static_messages]
    | some fs => simp [ApiCall.outcome, zvec_schema_add_field, hf] at hlocal
  | schema_add_vector_field handle field_def =>
    refine ⟨fun _ => ?_, fun hb => by simp [ApiCall.null_batch] at hb⟩
    rcases handle with _ | h <;> rcases field_def with _ | d <;>
      try simp [ApiCall.outcome, zvec_schema_add_vector_field, static_messages]
    cases hf : create_field_schema (some d) with
    | none => simp [static_messages]
    | some fs =>
      by_cases hv : R.is_vector_field fs.data_type = true
      · simp [ApiCall.outcome, zvec_schema_add_vector_field, hf, hv] at hlocal
      · simp [hv, static_messages]
  | create_and_open path schema options out =>
    refine ⟨fun _ => ?_, fun hb => by simp [ApiCall.null_batch] at hb⟩
    rcases path with _ | p <;> rcases out with _ | cell <;> rcases schema with _ | sch <;>
      try simp [ApiCall.outcome, zvec_collection_create_and_open, static_messages]
    cases hE : E.CreateAndOpen p sch.schema <;>
      simp [ApiCall.outcome, zvec_collection_create_and_open, hE] at hlocal
  | open_collection path options out =>
    refine ⟨fun _ => ?_, fun hb => by simp [ApiCall.null_batch] at hb⟩
    rcases path with _ | p <;> rcases out with _ | cell <;>
      try simp [ApiCall.outcome, zvec_collection_open, static_messages]
    cases hE : E.Open p <;> simp [ApiCall.outcome, zvec_collection_open, hE] at hlocal
  | destroy_data handle =>
    refine ⟨fun _ => ?_, fun hb => by simp [ApiCall.null_batch] at hb⟩
    rcases handle with _ | ⟨_ | c, pc⟩ <;>
      simp_all [ApiCall.outcome, ApiCall.null_argument, zvec_collection_destroy_data,
        zvec_collection_t.live, static_messages]
  | flush handle =>
    refine ⟨fun _ => ?_, fun hb => by simp [ApiCall.null_batch] at hb⟩
    rcases handle with _ | ⟨_ | c, pc⟩ <;>
      simp_all [ApiCall.outcome, ApiCall.null_argument, zvec_collection_flush,
        zvec_collection_t.live, static_messages]
  | optimize handle =>
    refine ⟨fun _ => ?_, fun hb => by simp [ApiCall.null_batch] at hb⟩
    rcases handle with _ | ⟨_ | c, pc⟩ <;>
      simp_all [ApiCall.outcome, ApiCall.null_argument, zvec_collection_optimize,
        zvec_collection_t.live, static_messages]
  | create_index handle field_name index_def =>
    refine ⟨fun _ => ?_, fun hb => by simp [ApiCall.null_batch] at hb⟩
    rcases handle with _ | ⟨_ | c, pc⟩ <;> rcases field_name with _ | n <;>
      rcases index_def with _ | d <;>
      try simp [ApiCall.outcome, zvec_collection_create_index, zvec_collection_t.live,
        static_messages]
    cases hp : create_index_params (some d) with
    | none => simp [static_messages]
    | some ip =>
      simp [ApiCall.outcome, zvec_collection_create_index, zvec_collection_t.live, hp]
        at hlocal
  | drop_index handle field_name =>
    refine ⟨fun _ => ?_, fun hb => by simp [ApiCall.null_batch] at hb⟩
    rcases handle with _ | ⟨_ | c, pc⟩ <;> rcases field_name with _ | n <;>
      simp_all [ApiCall.outcome, ApiCall.null_argument, zvec_collection_drop_index,
        zvec_collection_t.live, static_messages]
  | insert handle docs count =>
    rcases handle with _ | ⟨_ | c, pc⟩ <;> rcases docs with _ | ds <;>
      simp_all [ApiCall.outcome, ApiCall.null_argument, ApiCall.null_batch,
        zvec_collection_insert, zvec_collection_t.live, static_messages, ok_status]
  | upsert handle docs count =>
    rcases handle with _ | ⟨_ | c, pc⟩ <;> rcases docs with _ | ds <;>
      simp_all [ApiCall.outcome, ApiCall.null_argument, ApiCall.null_batch,
        zvec_collection_upsert, zvec_collection_t.live, static_messages, ok_status]
  | update handle docs count =>
    rcases handle with _ | ⟨_ | c, pc⟩ <;> rcases docs with _ | ds <;>
      simp_all [ApiCall.outcome, ApiCall.null_argument, ApiCall.null_batch,
        zvec_collection_update, zvec_collection_t.live, static_messages, ok_status]
  | delete handle ids count =>
    rcases handle with _ | ⟨_ | c, pc⟩ <;> rcases ids with _ | xs <;>
      simp_all [ApiCall.outcome, ApiCall.null_argument, ApiCall.null_batch,
        zvec_collection_delete, zvec_collection_t.live, static_messages, ok_status]
  | delete_by_filter handle filter =>
    refine ⟨fun _ => ?_, fun hb => by simp [ApiCall.null_batch] at hb⟩
    rcases handle with _ | ⟨_ | c, pc⟩ <;> rcases filter with _ | n <;>
      simp_all [ApiCall.outcome, ApiCall.null_argument, zvec_collection_delete_by_filter,
        zvec_collection_t.live, static_messages]
  | query handle q out =>
    refine ⟨fun _ => ?_, fun hb => by simp [ApiCall.null_batch] at hb⟩
    rcases handle with _ | ⟨_ | c, pc⟩ <;> rcases q with _ | qq <;>
      rcases out with _ | cell <;>
      try simp [ApiCall.outcome, zvec_collection_query, zvec_collection_t.live,
        static_messages]
    cases hE : (E.Query c qq.query).1 <;>
      simp [ApiCall.outcome, zvec_collection_query, zvec_collection_t.live, hE] at hlocal
  | fetch handle ids count out =>
    refine ⟨fun _ => ?_, fun hb => by simp [ApiCall.null_batch] at hb⟩
    rcases handle with _ | ⟨_ | c, pc⟩ <;> rcases out with _ | cell <;>
      try simp [ApiCall.outcome, zvec_collection_fetch, zvec_collection_t.live,
        static_messages]
    revert hlocal
    simp only [ApiCall.outcome, zvec_collection_fetch, zvec_collection_t.live]
    split <;> simp

/-- C8, amended, at concrete inputs: a query with a null out-parameter on the
in-memory engine is refused with code 2, and a delete with a null key array
on a usable handle returns the ok status. -/
theorem C8_local_validation_status_witness :
    ((ApiCall.query (some ⟨some [], "p"⟩) (some ⟨⟨10, "v", [], "", false, [], none⟩, "", "",
        [], [], []⟩) none : ApiCall (List Doc)).outcome memory_rules memory_engine).1.code = 2 ∧
    ((ApiCall.delete (some ⟨some [], "p"⟩) none 4 : ApiCall (List Doc)).outcome
      memory_rules memory_engine).1 = ok_status :=
  ⟨((C8_local_validation_status memory_rules memory_engine
      (ApiCall.query (some ⟨some [], "p"⟩) (some ⟨⟨10, "v", [], "", false, [], none⟩, "", "",
        [], [], []⟩) none) rfl rfl).1 rfl).1,
   (C8_local_validation_status memory_rules memory_engine
      (ApiCall.delete (some ⟨some [], "p"⟩) none 4) rfl rfl).2 rfl⟩

/-! ## Parameter builder -/

/-- C11: `create_index_params` yields a value exactly when the index-type tag
of the descriptor is one of the four known families (HNSW = 1, IVF = 3,
FLAT = 4, INVERT = 10), and the variant built is the one the tag names; for
every other tag, the undefined tag 0 included, and for a null descriptor it
yields no value. -/
theorem C11_index_params_variant (d : zvec_field_def_t) :
    ((create_index_params (some d)).isSome = true ↔
      (d.index_type = 1 ∨ d.index_type = 3 ∨ d.index_type = 4 ∨ d.index_type = 10)) ∧
    (d.index_type = 1 → ∃ m ef,
      create_index_params (some d) = some (IndexParams.hnsw d.metric_type m ef d.quantize_type)) ∧
    (d.index_type = 3 → ∃ n,
      create_index_params (some d) =
        some (IndexParams.ivf d.metric_type n 10 false d.quantize_type)) ∧
    (d.index_type = 4 →
      create_index_params (some d) = some (IndexParams.flat d.metric_type d.quantize_type)) ∧
    (d.index_type = 10 → create_index_params (some d) = some IndexParams.invert) ∧
    (d.index_type ≠ 1 → d.index_type ≠ 3 → d.index_type ≠ 4 → d.index_type ≠ 10 →
      create_index_params (some d) = none) ∧
    create_index_params none = none := by
  refine ⟨?_, ?_, ?_, ?_, ?_, ?_, rfl⟩
  · by_cases h1 : d.index_type = 1
    · simp [create_index_params, ZVEC_INDEX_TYPE_HNSW, h1]
    · by_cases h3 : d.index_type = 3
      · simp [create_index_params, ZVEC_INDEX_TYPE_HNSW, ZVEC_INDEX_TYPE_IVF, h3]
      · by_cases h4 : d.index_type = 4
        · simp [create_index_params, ZVEC_INDEX_TYPE_HNSW, ZVEC_INDEX_TYPE_IVF,
            ZVEC_INDEX_TYPE_FLAT, h4]
        · by_cases h10 : d.index_type = 10
          · simp [create_index_params, ZVEC_INDEX_TYPE_HNSW, ZVEC_INDEX_TYPE_IVF,
              ZVEC_INDEX_TYPE_FLAT, ZVEC_INDEX_TYPE_INVERT, h10]
          · simp [create_index_params, ZVEC_INDEX_TYPE_HNSW, ZVEC_INDEX_TYPE_IVF,
              ZVEC_INDEX_TYPE_FLAT, ZVEC_INDEX_TYPE_INVERT, h1, h3, h4, h10]
  · intro h
    exact ⟨_, _, by simp [create_index_params, ZVEC_INDEX_TYPE_HNSW, h]; exact ⟨rfl, rfl⟩⟩
  · intro h
    exact ⟨_, by simp [create_index_params, ZVEC_INDEX_TYPE_HNSW, ZVEC_INDEX_TYPE_IVF, h]; rfl⟩
  · intro h
    simp [create_index_params, ZVEC_INDEX_TYPE_HNSW, ZVEC_INDEX_TYPE_IVF,
      ZVEC_INDEX_TYPE_FLAT, h]
  · intro h
    simp [create_index_params, ZVEC_INDEX_TYPE_HNSW, ZVEC_INDEX_TYPE_IVF,
      ZVEC_INDEX_TYPE_FLAT, ZVEC_INDEX_TYPE_INVERT, h]
  · intro h1 h3 h4 h10
    simp [create_index_params, ZVEC_INDEX_TYPE_HNSW, ZVEC_INDEX_TYPE_IVF,
      ZVEC_INDEX_TYPE_FLAT, ZVEC_INDEX_TYPE_INVERT, h1, h3, h4, h10]

/-- C11 at concrete inputs: a flat descriptor, and a descriptor with the
unassigned tag 2. -/
theorem C11_index_params_variant_witness :
    create_index_params (some ⟨some "v", 23, 4, 0, 4, 3, 0, 0, 0, 1⟩) =
      some (IndexParams.flat 3 1) ∧
    create_index_params (some ⟨some "v", 23, 4, 0, 2, 3, 0, 0, 0, 1⟩) = none :=
  ⟨(C11_index_params_variant ⟨some "v", 23, 4, 0, 4, 3, 0, 0, 0, 1⟩).2.2.2.1 rfl,
   (C11_index_params_variant ⟨some "v", 23, 4, 0, 2, 3, 0, 0, 0, 1⟩).2.2.2.2.2.1
     (by decide) (by decide) (by decide) (by decide)⟩

/-- C15: `create_field_schema` yields no field exactly when the descriptor or
its name is null; for a descriptor with a non-null name it yields a field that
carries the name, data type and dimension of the descriptor, is nullable
exactly when the flag is non-zero, and carries index parameters exactly when
the index-type tag is not undefined and `create_index_params` yields a value,
in which case they are that value; so a descriptor naming an index-type for
which no parameters can be built still yields the field, without index
parameters. -/
theorem C15_field_schema (d : Option zvec_field_def_t) :
    (create_field_schema d = none ↔ (d = none ∨ ∃ x, d = some x ∧ x.name = none)) ∧
    (∀ x n, d = some x → x.name = some n →
      ∃ fs, create_field_schema d = some fs ∧
        fs.name = n ∧ fs.data_type = x.data_type ∧ fs.dimension = x.dimension ∧
        (fs.nullable = true ↔ x.nullable ≠ 0) ∧
        (fs.index_params.isSome = true ↔
          (x.index_type ≠ ZVEC_INDEX_TYPE_UNDEFINED ∧
            (create_index_params (some x)).isSome = true)) ∧
        (∀ p, fs.index_params = some p → create_index_params (some x) = some p) ∧
        (x.index_type ≠ ZVEC_INDEX_TYPE_UNDEFINED → create_index_params (some x) = none →
          fs.index_params = none)) := by
  constructor
  · cases d with
    | none => simp [create_field_schema]
    | some x =>
      cases hn : x.name with
      | none => simp [create_field_schema, hn]
      | some n => simp [create_field_schema_some x n hn, hn]
  · intro x n hd hn
    subst hd
    refine ⟨_, create_field_schema_some x n hn, rfl, rfl, rfl, ?_, ?_, ?_, ?_⟩
    · simp
    · by_cases hi : x.index_type ≠ ZVEC_INDEX_TYPE_UNDEFINED
      · simp [hi]
      · simp [hi]
    · intro p hp
      by_cases hi : x.index_type ≠ ZVEC_INDEX_TYPE_UNDEFINED
      · simpa [hi] using hp
      · simp [hi] at hp
    · intro hi hnone
      simp [hi, hnone]

/-- C15 at concrete inputs: a descriptor with the unassigned index-type tag 2
yields the field without index parameters, and a graph-based descriptor
yields the field with its parameters. -/
theorem C15_field_schema_witness :
    create_field_schema (some ⟨some "v", 23, 4, 1, 2, 1, 0, 0, 0, 0⟩) =
      some ⟨"v", 23, 4, true, none⟩ ∧
    create_field_schema (some ⟨some "v", 23, 4, 0, 1, 1, 8, 0, 0, 0⟩) =
      some ⟨"v", 23, 4, false, some (IndexParams.hnsw 1 8 200 0)⟩ := by
  obtain ⟨fs, h, h1, h2, h3, h4, _, _, h7⟩ :=
    (C15_field_schema (some ⟨some "v", 23, 4, 1, 2, 1, 0, 0, 0, 0⟩)).2
      ⟨some "v", 23, 4, 1, 2, 1, 0, 0, 0, 0⟩ "v" rfl rfl
  have h7b := h7 (by decide) (by decide)
  have h4b : fs.nullable = true := h4.mpr (by decide)
  refine ⟨?_, by decide⟩
  rw [h]
  cases fs
  simp_all

/-! ## Index management and query tunables -/

theorem to_c_status_code (s : Status) : (to_c_status s).code = s.code := by
  by_cases h : s.code = 0 <;> simp [to_c_status, Status.ok, h]

/-- C12, as stated, fails: the layer does not look at the declared data type of
the named field.  On a collection whose schema declares "title" with the
string data type 2, which is not a vector kind, a request for a graph-based
index on "title" is dispatched to the engine entry point `CreateIndex`; the
refusal the caller sees (code 3) is the engine's own, not the sentinel of the
layer. -/
theorem C12_index_request_reaches_engine :
    memory_rules.is_vector_field 2 = false ∧
    (zvec_collection_create_index schema_engine
      (some ⟨some ⟨"s", [⟨"title", 2, 0, false, none⟩]⟩, "p"⟩) (some "title")
      (some ⟨none, 0, 0, 0, ZVEC_INDEX_TYPE_HNSW, 1, 0, 0, 0, 0⟩)).calls =
      [EngineCall.CreateIndex] ∧
    (zvec_collection_create_index schema_engine
      (some ⟨some ⟨"s", [⟨"title", 2, 0, false, none⟩]⟩, "p"⟩) (some "title")
      (some ⟨none, 0, 0, 0, ZVEC_INDEX_TYPE_HNSW, 1, 0, 0, 0, 0⟩)).status.code = 3 ∧
    (zvec_collection_create_index memory_engine (some ⟨some [], "p"⟩) (some "title")
      (some ⟨none, 0, 0, 0, ZVEC_INDEX_TYPE_FLAT, 1, 0, 0, 0, 0⟩)).status = ok_status := by
  refine ⟨rfl, rfl, ?_, ?_⟩ <;> decide

/-- C12, amended: `zvec_collection_create_index` and
`zvec_collection_drop_index` validate their arguments only, never the declared
data type of the named field.  On a usable collection handle and a non-null
field name, a create request whose descriptor builds index parameters invokes
the engine entry point `CreateIndex` once, with that field name and those
parameters, and returns the code of the engine status; a descriptor that
builds no parameters is refused by the layer with code 2, a string literal as
message and no engine call; a drop request invokes `DropIndex` once and
returns the code of the engine status. -/
theorem C12_index_dispatch {C : Type} (E : Engine C) (h : zvec_collection_t C) (c : C)
    (hc : h.ptr = some c) (name : String) :
    (∀ d p, create_index_params (some d) = some p →
      (zvec_collection_create_index E (some h) (some name) (some d)).calls =
        [EngineCall.CreateIndex] ∧
      (zvec_collection_create_index E (some h) (some name) (some d)).status.code =
        (E.CreateIndex c name p).1.code ∧
      (zvec_collection_create_index E (some h) (some name) (some d)).state =
        some ⟨some (E.CreateIndex c name p).2, h.path_cache⟩) ∧
    (∀ d, create_index_params (some d) = none →
      (zvec_collection_create_index E (some h) (some name) (some d)).calls = [] ∧
      (zvec_collection_create_index E (some h) (some name) (some d)).status =
        ⟨2, some "invalid index definition"⟩ ∧
      (zvec_collection_create_index E (some h) (some name) (some d)).state = some h) ∧
    (zvec_collection_drop_index E (some h) (some name)).calls = [EngineCall.DropIndex] ∧
    (zvec_collection_drop_index E (some h) (some name)).status.code =
      (E.DropIndex c name).1.code ∧
    (zvec_collection_drop_index E (some h) (some name)).state =
      some ⟨some (E.DropIndex c name).2, h.path_cache⟩ := by
  have hlive : zvec_collection_t.live (some h) = some (h, c) := by
    simp [zvec_collection_t.live, hc]
  refine ⟨?_, ?_, ?_, ?_, ?_⟩
  · intro d p hp
    simp [zvec_collection_create_index, hlive, hp, to_c_status_code]
  · intro d hp
    simp [zvec_collection_create_index, hlive, hp]
  · simp [zvec_collection_drop_index, hlive]
  · simp [zvec_collection_drop_index, hlive, to_c_status_code]
  · simp [zvec_collection_drop_index, hlive]

/-- C12, amended, at a concrete input: a flat index requested on the string
field "title" of a collection of the schema-keeping engine reaches the engine. -/
theorem C12_index_dispatch_witness :
    (zvec_collection_create_index schema_engine
      (some ⟨some ⟨"s", [⟨"title", 2, 0, false, none⟩]⟩, "p"⟩) (some "title")
      (some ⟨none, 0, 0, 0, ZVEC_INDEX_TYPE_FLAT, 1, 0, 0, 0, 0⟩)).calls =
      [EngineCall.CreateIndex] :=
  ((C12_index_dispatch schema_engine ⟨some ⟨"s", [⟨"title", 2, 0, false, none⟩]⟩, "p"⟩
    ⟨"s", [⟨"title", 2, 0, false, none⟩]⟩ rfl "title").1
    ⟨none, 0, 0, 0, ZVEC_INDEX_TYPE_FLAT, 1, 0, 0, 0, 0⟩ (IndexParams.flat 1 0) rfl).1

/-- C13: for every query handle and every value, `zvec_query_set_ef_search`
leaves the whole query record unchanged when the search-time parameter variant
is absent or is not the graph-based one, and `zvec_query_set_n_probe` leaves it
unchanged when the variant is absent or is not the inverted-list one; when the
variant matches, the call replaces the tunable of that variant (search
breadth, respectively probe count) by the value given and leaves every other
member of the query and of the handle as it was.  A null handle stays null. -/
theorem C13_search_tunables (h : zvec_query_t) (v : Int) :
    ((∀ e, h.query.query_params_ ≠ some (QueryParams.hnsw e)) →
      zvec_query_set_ef_search (some h) v = some h) ∧
    ((∀ e, h.query.query_params_ ≠ some (QueryParams.ivf e)) →
      zvec_query_set_n_probe (some h) v = some h) ∧
    (∀ e, h.query.query_params_ = some (QueryParams.hnsw e) →
      zvec_query_set_ef_search (some h) v =
        some ⟨⟨h.query.topk_, h.query.field_name_, h.query.query_vector_, h.query.filter_,
               h.query.include_vector_, h.query.output_fields_, some (QueryParams.hnsw v)⟩,
              h.field_name_cache, h.filter_cache, h.output_fields_cache,
              h.output_fields_ptrs, h.vector_cache⟩) ∧
    (∀ e, h.query.query_params_ = some (QueryParams.ivf e) →
      zvec_query_set_n_probe (some h) v =
        some ⟨⟨h.query.topk_, h.query.field_name_, h.query.query_vector_, h.query.filter_,
               h.query.include_vector_, h.query.output_fields_, some (QueryParams.ivf v)⟩,
              h.field_name_cache, h.filter_cache, h.output_fields_cache,
              h.output_fields_ptrs, h.vector_cache⟩) ∧
    zvec_query_set_ef_search none v = none ∧
    zvec_query_set_n_probe none v = none := by
  obtain ⟨⟨topk, fname, qv, flt, incl, outs, params⟩, c1, c2, c3, c4, c5⟩ := h
  refine ⟨?_, ?_, ?_, ?_, rfl, rfl⟩
  · intro hne
    cases params with
    | none => rfl
    | some p =>
      cases p with
      | hnsw e => exact absurd rfl (hne e)
      | ivf n => rfl
      | other => rfl
  · intro hne
    cases params with
    | none => rfl
    | some p =>
      cases p with
      | hnsw e => rfl
      | ivf n => exact absurd rfl (hne n)
      | other => rfl
  · intro e he
    simp only at he
    subst he
    rfl
  · intro e he
    simp only at he
    subst he
    rfl

/-- C13 at concrete inputs: on a query whose variant is the inverted-list one
with probe count 4, `set_ef_search` changes nothing and `set_n_probe` sets the
probe count. -/
theorem C13_search_tunables_witness :
    zvec_query_set_ef_search
        (some ⟨⟨10, "v", [], "", false, [], some (QueryParams.ivf 4)⟩, "v", "", [], [], []⟩) 64 =
      some ⟨⟨10, "v", [], "", false, [], some (QueryParams.ivf 4)⟩, "v", "", [], [], []⟩ ∧
    zvec_query_set_n_probe
        (some ⟨⟨10, "v", [], "", false, [], some (QueryParams.ivf 4)⟩, "v", "", [], [], []⟩) 9 =
      some ⟨⟨10, "v", [], "", false, [], some (QueryParams.ivf 9)⟩, "v", "", [], [], []⟩ :=
  ⟨(C13_search_tunables
      ⟨⟨10, "v", [], "", false, [], some (QueryParams.ivf 4)⟩, "v", "", [], [], []⟩ 64).1
      (by intro e he; simp at he),
   (C13_search_tunables
      ⟨⟨10, "v", [], "", false, [], some (QueryParams.ivf 4)⟩, "v", "", [], [], []⟩ 9).2.2.2.1
      4 rfl⟩

/-! ## Query results and reachable query handles -/

theorem query_docs_eq (ds : List (Option Doc)) :
    query_docs ds = (ds.filterMap id).map (fun d => (⟨d, d.pk, []⟩ : zvec_doc_t)) := by
  induction ds with
  | nil => rfl
  | cons x rest ih =>
    have ih2 : List.filterMap (fun doc_ptr : Option Doc =>
        match doc_ptr with
        | some d => some (⟨d, d.pk, []⟩ : zvec_doc_t)
        | none => none) rest =
        (rest.filterMap id).map (fun d => (⟨d, d.pk, []⟩ : zvec_doc_t)) := ih
    cases x with
    | none => simpa [query_docs] using ih2
    | some d => simp [query_docs, List.filterMap_cons, ih2]

/-- C14: for every call of `zvec_collection_query` that returns code 0, on an
engine whose failures carry a non-success status, the engine returned a list
of document pointers and the out-parameter holds a result handle that
enumerates exactly the non-null documents of that list in the order of the
engine: `zvec_result_count` is their number, for every index below the count
`zvec_result_get_doc` is a document record whose document (primary key, score
and fields) is the engine document at that position and whose key and score
read back as such, and for every index at or above the count, as for a null
result handle, `zvec_result_get_doc` is null. -/
theorem C14_query_results {C : Type} (E : Engine C)
    (hfail : ∀ c q e, (E.Query c q).1 = Except.error e → e.ok = false)
    (handle : Option (zvec_collection_t C)) (query : Option zvec_query_t)
    (out : Option (Option zvec_result_t))
    (hcode : (zvec_collection_query E handle query out).status.code = 0) :
    ∃ h c q ds res,
      zvec_collection_t.live handle = some (h, c) ∧ query = some q ∧
      (E.Query c q.query).1 = Except.ok ds ∧
      (zvec_collection_query E handle query out).state.2 = some (some res) ∧
      zvec_result_count (some res) = (ds.filterMap id).length ∧
      (∀ i, i < zvec_result_count (some res) →
        ∃ r, zvec_result_get_doc (some res) i = some r ∧
          (ds.filterMap id).get? i = some r.doc ∧
          (zvec_doc_get_pk (some r)).1 = some r.doc.pk ∧
          zvec_doc_get_score (some r) = r.doc.score) ∧
      (∀ i, zvec_result_count (some res) ≤ i → zvec_result_get_doc (some res) i = none) ∧
      (∀ i, zvec_result_get_doc none i = none) := by
  cases hl : zvec_collection_t.live handle with
  | none => simp [zvec_collection_query, hl] at hcode
  | some hc =>
    obtain ⟨h, c⟩ := hc
    cases query with
    | none => simp [zvec_collection_query, hl] at hcode
    | some q =>
      cases out with
      | none => simp [zvec_collection_query, hl] at hcode
      | some cell =>
        cases hE : (E.Query c q.query).1 with
        | error e =>
          have hk := hfail c q.query e hE
          have hne : ¬ e.code = 0 := by simpa [Status.ok] using hk
          simp [zvec_collection_query, hl, hE, to_c_status, hk, hne] at hcode
        | ok ds =>
          refine ⟨h, c, q, ds, ⟨query_docs ds⟩, rfl, rfl, hE, ?_, ?_, ?_, ?_, ?_⟩
          · simp [zvec_collection_query, hl, hE]
          · simp [zvec_result_count, query_docs_eq]
          · intro i hi
            have hlen : i < (ds.filterMap id).length := by
              simpa [zvec_result_count, query_docs_eq] using hi
            refine ⟨⟨(ds.filterMap id).get ⟨i, hlen⟩, ((ds.filterMap id).get ⟨i, hlen⟩).pk, []⟩,
              ?_, ?_, rfl, rfl⟩
            · have hnot : ¬ (ds.filterMap id).length ≤ i := Nat.not_le.mpr hlen
              simp [zvec_result_get_doc, query_docs_eq, hnot, List.getElem?_eq_getElem hlen]
            · simp [List.getElem?_eq_getElem hlen]
          · intro i hi
            have hi2 : (query_docs ds).length ≤ i := hi
            simp [zvec_result_get_doc, hi2]
          · intro i
            rfl

theorem memory_engine_query_fails (c : List Doc) (q : VectorQuery) (e : Status)
    (h : (memory_engine.Query c q).1 = Except.error e) : e.ok = false := by
  simp [memory_engine] at h

/-- C14 at a concrete input: a query on an in-memory collection holding the
documents "a" and "b" returns code 0 and yields a result handle. -/
theorem C14_query_results_witness :
    ∃ res,
      (zvec_collection_query memory_engine
        (some ⟨some [⟨"a", 0, []⟩, ⟨"b", 0, []⟩], "p"⟩)
        (some ⟨VectorQuery.empty, "", "", [], [], []⟩) (some none)).state.2 = some (some res) ∧
      zvec_result_count (some res) =
        (([some ⟨"a", 0, []⟩, some ⟨"b", 0, []⟩] : List (Option Doc)).filterMap id).length := by
  obtain ⟨h, c, q, ds, res, hl, hq, hE, hout, hcount, _⟩ :=
    C14_query_results memory_engine memory_engine_query_fails
      (some ⟨some [⟨"a", 0, []⟩, ⟨"b", 0, []⟩], "p"⟩)
      (some ⟨VectorQuery.empty, "", "", [], [], []⟩) (some none) rfl
  refine ⟨res, hout, ?_⟩
  have hc : c = [⟨"a", 0, []⟩, ⟨"b", 0, []⟩] := by
    simp [zvec_collection_t.live] at hl
    exact hl.2.symm
  have hds : ds = [some ⟨"a", 0, []⟩, some ⟨"b", 0, []⟩] := by
    subst hc
    simp [memory_engine] at hE
    exact hE.symm
  rw [hcount, hds]

theorem QueryOp.run_absent (h : zvec_query_t) (hp : h.query.query_params_ = none)
    (op : QueryOp) :
    ∃ h2, QueryOp.run (some h) op = some h2 ∧ h2.query.query_params_ = none := by
  cases op with
  | set_topk topk => exact ⟨_, rfl, hp⟩
  | set_field_name field_name =>
    cases field_name with
    | none => exact ⟨h, rfl, hp⟩
    | some n => exact ⟨_, rfl, hp⟩
  | set_vector data len =>
    cases data with
    | none => exact ⟨h, rfl, hp⟩
    | some xs => exact ⟨_, rfl, hp⟩
  | set_filter filter =>
    cases filter with
    | none => exact ⟨h, rfl, hp⟩
    | some flt => exact ⟨_, rfl, hp⟩
  | set_include_vector incl => exact ⟨_, rfl, hp⟩
  | set_output_fields fields count =>
    cases fields with
    | none => exact ⟨h, rfl, hp⟩
    | some fs => exact ⟨_, rfl, hp⟩
  | set_ef_search ef =>
    exact ⟨h, by simp [QueryOp.run, zvec_query_set_ef_search, hp], hp⟩
  | set_n_probe n_probe =>
    exact ⟨h, by simp [QueryOp.run, zvec_query_set_n_probe, hp], hp⟩

theorem QueryOp.runs_absent (ops : List QueryOp) (h : zvec_query_t)
    (hp : h.query.query_params_ = none) :
    ∃ h2, QueryOp.runs (some h) ops = some h2 ∧ h2.query.query_params_ = none := by
  induction ops generalizing h with
  | nil => exact ⟨h, rfl, hp⟩
  | cons op rest ih =>
    obtain ⟨h1, hrun, hp1⟩ := QueryOp.run_absent h hp op
    obtain ⟨h2, hruns, hp2⟩ := ih h1 hp1
    refine ⟨h2, ?_, hp2⟩
    simpa [QueryOp.runs, List.foldl_cons, hrun] using hruns

/-- C16: every query handle obtained from `zvec_query_create` followed by any
finite sequence of the query mutators of the layer (set_topk, set_field_name,
set_vector, set_filter, set_include_vector, set_output_fields, set_ef_search,
set_n_probe, with any arguments) is a usable handle whose search-time
parameter variant is absent; consequently `zvec_query_set_ef_search` and
`zvec_query_set_n_probe` leave every such query as it is, for every argument
value. -/
theorem C16_query_params_absent (ops : List QueryOp) :
    ∃ h, QueryOp.runs zvec_query_create ops = some h ∧
      h.query.query_params_ = none ∧
      (∀ ef, zvec_query_set_ef_search (QueryOp.runs zvec_query_create ops) ef =
        QueryOp.runs zvec_query_create ops) ∧
      (∀ n_probe, zvec_query_set_n_probe (QueryOp.runs zvec_query_create ops) n_probe =
        QueryOp.runs zvec_query_create ops) := by
  obtain ⟨h, hruns, hp⟩ :=
    QueryOp.runs_absent ops ⟨VectorQuery.empty, "", "", [], [], []⟩ rfl
  have hruns2 : QueryOp.runs zvec_query_create ops = some h := hruns
  refine ⟨h, hruns2, hp, ?_, ?_⟩
  · intro ef
    rw [hruns2]
    simp [zvec_query_set_ef_search, hp]
  · intro n_probe
    rw [hruns2]
    simp [zvec_query_set_n_probe, hp]

end Zvec
